import Mathlib

/-!
Shallow embedding of the binary-validation engine of the
`python-build-standalone` repository (files `src/validation.rs`,
`src/macho.rs`, `src/json.rs`), together with theorems settling the
frozen claims about its specification.

Modelling conventions:
* Rust `String`/`&str` values are modelled as `List Char` (`Str`); `str`
  converts a Lean string literal.
* Machine integers (`u8`, `u32`, `u64`) are modelled as `Nat` with explicit
  `% 2^w` at the operations where Rust wraps.
* `BTreeMap` / `BTreeSet` are modelled as key-sorted association lists /
  sorted lists, their ordering invariants stated as hypotheses.
* Fallible Rust code (`anyhow::Result`, `?`) is modelled with an explicit
  result type; `panic!` / `unwrap` / `expect` are modelled as a separate
  `panicked` outcome.
* Error strings built with `format!` are modelled as a structured error
  inductive, one constructor per `format!` template, carrying the values
  interpolated by the template.
* External parsing libraries (`object`, `goblin`, `tar`, `serde_json`)
  are modelled as oracles: an archive entry carries the *results* of those
  parses, and the embedding reproduces the repository's control flow over
  those results.
-/

namespace PBS


/-- Rust strings, modelled as lists of characters. -/
abbrev Str : Type := List Char

/-- Convert a Lean string literal into the `Str` model. -/
def str (s : String) : Str := s.data

/-! ### Decimal numerals

Models of Rust's `u32::from_str` / `Display for u32` (used by
`MachOPackedVersion`'s `TryFrom<&str>` and `Display` impls). -/

/-- The decimal digit character for `d < 10`. -/
def digitChar (d : Nat) : Char := Char.ofNat (48 + d)

/-- Fuel-indexed helper for `natToDigits` (structural recursion so that the
kernel can evaluate numerals). -/
def natToDigitsF : Nat → Nat → Str
  | 0, _ => []
  | fuel + 1, n =>
    if n < 10 then [digitChar n]
    else natToDigitsF fuel (n / 10) ++ [digitChar (n % 10)]

/-- Canonical decimal numeral of a natural number, as produced by Rust's
`Display` for unsigned integers. -/
def natToDigits (n : Nat) : Str := natToDigitsF (n + 1) n

/-- Value of a string of decimal digit characters. -/
def digitsToNat (s : Str) : Nat :=
  s.foldl (fun acc c => acc * 10 + (c.toNat - 48)) 0

/-- Strip one leading `'+'`, as `u32::from_str` accepts an optional sign. -/
def stripPlus (s : Str) : Str :=
  match s with
  | [] => []
  | c :: rest => if c = '+' then rest else c :: rest

/-- Model of Rust's `u32::from_str`: optional `'+'`, then one or more
decimal digits, value below `2^32`. -/
def parseU32 (s : Str) : Option Nat :=
  if (stripPlus s).isEmpty then none
  else if (stripPlus s).all Char.isDigit then
    if digitsToNat (stripPlus s) < 4294967296 then some (digitsToNat (stripPlus s))
    else none
  else none

/-- Model of Rust's `str::split(sep)` collected into a vector. -/
def splitOnChar (sep : Char) : Str → List Str
  | [] => [[]]
  | c :: rest =>
    if c = sep then [] :: splitOnChar sep rest
    else
      match splitOnChar sep rest with
      | [] => [[c]]
      | s :: ss => (c :: s) :: ss

/-! ### MachOPackedVersion (`src/macho.rs` lines 19–58) -/

/-- Mach-O packed version: `struct MachOPackedVersion { value: u32 }`. -/
structure MachOPackedVersion where
  value : Nat
deriving DecidableEq, Repr

namespace MachOPackedVersion

/-- Model of `TryFrom<&str> for MachOPackedVersion`: split on `'.'`,
require 3 components, parse each as `u32`, pack as
`(major << 16) | ((minor & 0xff) << 8) | (subminor & 0xff)` (u32 arithmetic,
shifts wrap modulo `2^32`). -/
def tryFrom (s : Str) : Option MachOPackedVersion :=
  match splitOnChar '.' s with
  | [p0, p1, p2] =>
    match parseU32 p0, parseU32 p1, parseU32 p2 with
    | some major, some minor, some subminor =>
      some ⟨((major <<< 16) % 4294967296) ||| ((minor &&& 255) <<< 8) |||
        (subminor &&& 255)⟩
    | _, _, _ => none
  | _ => none

/-- Model of `From<u32> for MachOPackedVersion`. -/
def fromU32 (v : Nat) : MachOPackedVersion := ⟨v⟩

/-- Model of `Display for MachOPackedVersion`: print
`(value >> 16).((value >> 8) & 0xff).(value & 0xff)`. -/
def display (v : MachOPackedVersion) : Str :=
  natToDigits (v.value >>> 16) ++ '.' ::
    (natToDigits ((v.value >>> 8) &&& 255) ++ '.' :: natToDigits (v.value &&& 255))

/-- The strict order derived from `PartialOrd` on the single-field struct:
compare the packed `u32` values. -/
def ltv (a b : MachOPackedVersion) : Prop := a.value < b.value

instance : DecidablePred fun p : MachOPackedVersion × MachOPackedVersion => ltv p.1 p.2 :=
  fun p => inferInstanceAs (Decidable (p.1.value < p.2.value))

instance decLtv (a b : MachOPackedVersion) : Decidable (ltv a b) :=
  inferInstanceAs (Decidable (a.value < b.value))

end MachOPackedVersion


/-- The 3-component dotted string `a.b.c` built from canonical decimal
numerals. -/
def verStr (a b c : Nat) : Str :=
  natToDigits a ++ '.' :: (natToDigits b ++ '.' :: natToDigits c)

/-! ### Sorted association lists
Model of Rust's `BTreeMap` (key-sorted association list) and `BTreeSet`
(a `BTreeMap` with unit values, as in the Rust standard library). The
sortedness invariant maintained by `BTreeMap` is stated as a hypothesis. -/

section SortedMaps

variable {α : Type} {β : Type} [LinearOrder α]



/-- The `BTreeMap` invariant: keys strictly increasing. -/
def keysSorted (l : List (α × β)) : Prop := l.Pairwise (fun p q => p.1 < q.1)

/-- Model of `BTreeMap::get`. -/
def lookupKey (k : α) : List (α × β) → Option β
  | [] => none
  | (k', v) :: rest => if k = k' then some v else lookupKey k rest

/-- Model of `BTreeMap::entry(k).or_default()` followed by an update `g` of
the entry's value (`d` is the `Default` value). -/
def mapModify (k : α) (d : β) (g : β → β) : List (α × β) → List (α × β)
  | [] => [(k, g d)]
  | (k', v) :: rest =>
    if k < k' then (k, g d) :: (k', v) :: rest
    else if k' < k then (k', v) :: mapModify k d g rest
    else (k', g v) :: rest

/-- Model of the `for (k, v) in other { ... }` merge loops: fold `b`'s
entries into `a`, combining an existing (or freshly defaulted) value with
the incoming one via `comb`. -/
def bmerge (comb : β → β → β) (d : β) (a b : List (α × β)) : List (α × β) :=
  b.foldl (fun acc p => mapModify p.1 d (fun v => comb v p.2) acc) a

/-- All values of the map satisfy `P`. -/
def valuesP (P : β → Prop) (l : List (α × β)) : Prop := ∀ p ∈ l, P p.2

/-- Pointwise combination of optional values, as produced by `bmerge`. -/
def combineOpt (comb : β → β → β) (d : β) : Option β → Option β → Option β
  | none, none => none
  | some x, none => some x
  | none, some y => some (comb d y)
  | some x, some y => some (comb x y)


end SortedMaps


/-! ### RequiredSymbols (`src/macho.rs` lines 75–126) -/

/-- Model of `BTreeSet<T>`: a `BTreeMap` with unit values, as in the Rust
standard library where `BTreeSet<T>` wraps `BTreeMap<T, ()>`. -/
abbrev BSet (α : Type) : Type := List (α × Unit)

/-- Model of `BTreeSet::insert`. -/
def setInsert [LinearOrder α] (x : α) (s : BSet α) : BSet α :=
  mapModify x () id s

/-- Model of `BTreeSet::extend` (insert every element of `t` into `s`). -/
def setExtend [LinearOrder α] (s t : BSet α) : BSet α :=
  bmerge (fun _ _ => ()) () s t

/-- Set membership. -/
def setMem [LinearOrder α] (x : α) (s : BSet α) : Prop := lookupKey x s = some ()

instance setMemDec [LinearOrder α] (x : α) (s : BSet α) : Decidable (setMem x s) :=
  inferInstanceAs (Decidable (lookupKey x s = some ()))

/-- Model of `LibrarySymbols`: symbol name → set of source paths that
require the symbol (paths identified by their display strings). -/
abbrev LibrarySymbols : Type := List (Str × BSet Str)

instance : DecidableEq (BSet Str) := inferInstance

instance : DecidableEq LibrarySymbols := inferInstance

/-- Model of `RequiredSymbols`: library name → `LibrarySymbols`. -/
structure RequiredSymbols where
  libraries : List (Str × LibrarySymbols)
deriving DecidableEq, Repr

/-- Inner loop of `RequiredSymbols::merge`: fold the symbols of one library
of `other` into an existing `LibrarySymbols`, unioning the path sets. -/
def lsMerge (a b : LibrarySymbols) : LibrarySymbols := bmerge setExtend [] a b

/-- Model of `RequiredSymbols::insert`. -/
def RequiredSymbols.insert (self : RequiredSymbols) (library symbol path : Str) :
    RequiredSymbols :=
  ⟨mapModify library []
    (fun ls => mapModify symbol [] (fun ps => setInsert path ps) ls) self.libraries⟩

/-- Model of `RequiredSymbols::merge`. -/
def RequiredSymbols.merge (self other : RequiredSymbols) : RequiredSymbols :=
  ⟨bmerge lsMerge [] self.libraries other.libraries⟩

/-- Well-formedness of `LibrarySymbols`: the `BTreeMap`/`BTreeSet`
sortedness invariants. -/
def lsWF (ls : LibrarySymbols) : Prop := keysSorted ls ∧ ∀ p ∈ ls, keysSorted p.2

/-- Well-formedness of `RequiredSymbols`. -/
def rsWF (rs : RequiredSymbols) : Prop :=
  keysSorted rs.libraries ∧ ∀ p ∈ rs.libraries, lsWF p.2

instance keysSortedDec [LinearOrder α] (l : List (α × β)) :
    Decidable (keysSorted l) :=
  inferInstanceAs (Decidable (l.Pairwise _))

instance lsWFDec (ls : LibrarySymbols) : Decidable (lsWF ls) :=
  inferInstanceAs (Decidable (_ ∧ _))

instance rsWFDec (rs : RequiredSymbols) : Decidable (rsWF rs) :=
  inferInstanceAs (Decidable (_ ∧ _))

/-- The table `A ↦ s1 ↦ p1` from the claim's example. -/
def rsExampleA : RequiredSymbols :=
  ⟨[((str ("A")), [((str ("s1")), [((str ("p1")), ())])])]⟩

/-- The table `A ↦ s1 ↦ p2, B ↦ s2 ↦ p3` from the claim's example. -/
def rsExampleB : RequiredSymbols :=
  ⟨[((str ("A")), [((str ("s1")), [((str ("p2")), ())])]),
    ((str ("B")), [((str ("s2")), [((str ("p3")), ())])])]⟩

/-- The empty table. -/
def rsExampleEmpty : RequiredSymbols := ⟨[]⟩

/-- The expected merge result `A ↦ s1 ↦ p1 p2, B ↦ s2 ↦ p3`. -/
def rsExampleAB : RequiredSymbols :=
  ⟨[((str ("A")), [((str ("s1")), [((str ("p1")), ()), ((str ("p2")), ())])]),
    ((str ("B")), [((str ("s2")), [((str ("p3")), ())])])]⟩

/-! ### Mach-O constants (from the `object` crate, values as in
`object::macho`) -/

def MH_OBJECT : Nat := 1

def MH_TWOLEVEL : Nat := 128

def CPU_TYPE_ARM64 : Nat := 16777228

def CPU_TYPE_X86_64 : Nat := 16777223

def N_WEAK_REF : Nat := 64

def MACHO_N_TYPE : Nat := 14

def MACHO_N_UNDF : Nat := 0

def MACHO_N_EXT : Nat := 1

def MACHO_N_PEXT : Nat := 16

def SELF_LIBRARY_ORDINAL : Nat := 0

def MAX_LIBRARY_ORDINAL : Nat := 253

/-! ### semver model

The repository compares `semver::Version` values parsed from purely
numeric version strings; prerelease and build metadata never occur, so the
model restricts to the numeric triple. -/

/-- Numeric `semver::Version`. -/
structure SemVer where
  major : Nat
  minor : Nat
  patch : Nat
deriving DecidableEq, Repr

/-- semver ordering on numeric versions (lexicographic). -/
def SemVer.ltb (a b : SemVer) : Bool :=
  a.major < b.major
    || (a.major == b.major
        && (a.minor < b.minor || (a.minor == b.minor && a.patch < b.patch)))

/-- Model of `parse_version_nibbles` (validation.rs:1095): major is the
high 16 bits, minor the next 8 (computed as `v << 16 >> 24` on `u32`),
patch the low 8. -/
def parse_version_nibbles (v : Nat) : SemVer :=
  ⟨v >>> 16, ((v <<< 16) % 4294967296) >>> 24, v &&& 255⟩

/-- Model of a semver numeral: nonempty, digits only, no leading zero,
value below `2^64`. -/
def parseSemverNum (s : Str) : Option Nat :=
  match s with
  | [] => none
  | '0' :: _ :: _ => none
  | _ =>
    if s.all Char.isDigit then
      if digitsToNat s < 18446744073709551616 then some (digitsToNat s) else none
    else none

/-- Model of `semver::Version::parse` on numeric versions. -/
def semverParse (s : Str) : Option SemVer :=
  match splitOnChar '.' s with
  | [a, b, c] =>
    match parseSemverNum a, parseSemverNum b, parseSemverNum c with
    | some x, some y, some z => some ⟨x, y, z⟩
    | _, _, _ => none
  | _ => none

/-! ### String helpers used by the validators -/

/-- Model of `str::starts_with`. -/
def startsWithStr (pre s : Str) : Bool := pre.isPrefixOf s

/-- Model of `str::ends_with`. -/
def endsWithStr (suf s : Str) : Bool := suf.isSuffixOf s

/-- Model of `std::path::Path::file_name`: the final `/`-separated
component (empty final components yield `none`). -/
def fileName (path : Str) : Option Str :=
  match (splitOnChar '/' path).getLast? with
  | some last => if last.isEmpty then none else some last
  | none => none

/-! ### Structured validation errors

One constructor per `format!` template pushed onto
`ValidationContext::errors` (or returned by `validate_json` /
`validate_extension_modules`), carrying the interpolated values. -/

inductive VError
  | invalidElfMachineType (path : Str) (wanted got : Nat)
  | elfIllegalLibrary (path lib : Str)
  | elfNoSystemLinkEntry (path lib : Str)
  | elfNotSoExt (path lib : Str)
  | elfNoLibStart (path lib : Str)
  | elfBannedSymbol (path name : Str)
  | elfGlibcTooNew (path name : Str) (v maxAllowed : List Nat)
  | elfNonHiddenDependencySymbol (path name : Str)
  | machoWrongCpuType (path : Str) (got wanted : Nat)
  | machoNoTwoLevel (path : Str)
  | machoTooNewVersion (path lib : Str) (got maxAllowed : MachOPackedVersion)
  | machoIllegalLibrary (path lib : Str)
  | machoDependencySymbolExported (path name : Str)
  | machoTargetsWrongSdk (path : Str) (actual advertised : SemVer)
  | machoBuiltWrongSdk (path : Str) (actual advertised : SemVer)
  | peIllegalLibrary (path lib : Str)
  | unexpectedFatMachO (path : Str)
  | extraExtensionModule (name : Str)
  | missingExtensionModule (name : Str)
  | wrongJsonVersion (got : Str)
  | jsonNoSdkCanonicalName
  | jsonNoSdkDeploymentTarget
  | jsonNoSdkPlatform
  | jsonNoSdkVersionField
  | wrongPlatformTag (wanted got : Str)
  | abiflagsNoD
  | bannedExtension (name : Str)
  | firstEntryNotPythonJson (got : Str)
  | shebangBuildEnv (path : Str)
  | pythonJsonSeenTwice
  | binPythonNotSymlink
  | binPython3NotSymlink
  | binPythonEntriesMissing
  | binPythonMissing
  | binPython3Missing
  | symlinkTargetsDiffer (python python3 : Str)
  | symlinkTargetMissing (path : Str)
  | pythonPathPrefixMissing (path : Str)
  | requiredLibraryNotSeen (lib : Str)
  | requiredPathNotSeen (path : Str)
  | libpythonExportsNothing
  | libpythonSymbolWrong (wanted : Bool) (symbol : Str)
  | extensionSharedLibMissing (name shared : Str)
  | extensionNoSharedLibrary (name : Str)
  | extensionUnexpectedSharedLibrary (name : Str)
  | extensionInitFnWrong (wanted : Bool) (initFn name : Str)
  | missingSdkAdvertisement
  | objectPathNotInArchive (path : Str)
deriving DecidableEq, Repr

/-- Structural failures propagated with `?` (`anyhow::Error`). -/
inductive RErr
  | objectHeaderParse
  | semverParseFailed (s : Str)
  | unhandledMachoTriple (triple : Str)
  | symbolLibraryUnresolved
  | jsonParseFailed
  | archiveMemberExtract (member path : Str)
  | platformTagMissing (triple : Str)
  | peNoFilename
  | tripleFromFilename (path : Str)
  | pythonVersionFromFilename
deriving DecidableEq, Repr

/-- Outcome of running fallible repository code: success, a propagated
`anyhow` error (`?`), or a Rust panic (`unwrap` / `expect` / `panic!`). -/
inductive RunResult (α : Type)
  | ok (a : α)
  | err (e : RErr)
  | panicked
deriving DecidableEq, Repr

def RunResult.bind : RunResult α → (α → RunResult β) → RunResult β
  | .ok a, f => f a
  | .err e, _ => .err e
  | .panicked, _ => .panicked

instance : Monad RunResult where
  pure := .ok
  bind := RunResult.bind

/-! ### ValidationContext (`src/validation.rs` lines 803–833) -/

structure ValidationContext where
  errors : List VError
  seen_dylibs : BSet Str
  libpython_exported_symbols : BSet Str
  macho_undefined_symbols_strong : RequiredSymbols
  macho_undefined_symbols_weak : RequiredSymbols
deriving DecidableEq, Repr

/-- Model of `ValidationContext::default`. -/
def ValidationContext.default : ValidationContext := ⟨[], [], [], ⟨[]⟩, ⟨[]⟩⟩

/-- Model of `ValidationContext::merge`. -/
def ValidationContext.merge (self other : ValidationContext) : ValidationContext :=
  ⟨self.errors ++ other.errors,
    setExtend self.seen_dylibs other.seen_dylibs,
    setExtend self.libpython_exported_symbols other.libpython_exported_symbols,
    self.macho_undefined_symbols_strong.merge other.macho_undefined_symbols_strong,
    self.macho_undefined_symbols_weak.merge other.macho_undefined_symbols_weak⟩

/-- Push one error (`context.errors.push(...)`). -/
def pushErr (ctx : ValidationContext) (e : VError) : ValidationContext :=
  { ctx with errors := ctx.errors ++ [e] }

/-! ### Mach-O allowed-dylib policy tables (`src/validation.rs` 247–476) -/

/-- Model of `MachOAllowedDylib`. -/
structure MachOAllowedDylib where
  name : Str
  max_compatibility_version : MachOPackedVersion
  required : Bool
deriving DecidableEq, Repr

/-- Packed version from a table literal (`"x.y.z".try_into().unwrap()`). -/
def mpv (s : String) : MachOPackedVersion :=
  (MachOPackedVersion.tryFrom s.data).getD ⟨0⟩

def DARWIN_ALLOWED_DYLIBS : List MachOAllowedDylib := [
  ⟨str ("@executable_path/../lib/libpython3.9.dylib"), mpv ("3.9.0"), false⟩,
  ⟨str ("@executable_path/../lib/libpython3.9d.dylib"), mpv ("3.9.0"), false⟩,
  ⟨str ("@executable_path/../lib/libpython3.10.dylib"), mpv ("3.10.0"), false⟩,
  ⟨str ("@executable_path/../lib/libpython3.10d.dylib"), mpv ("3.10.0"), false⟩,
  ⟨str ("@executable_path/../lib/libpython3.11.dylib"), mpv ("3.11.0"), false⟩,
  ⟨str ("@executable_path/../lib/libpython3.11d.dylib"), mpv ("3.11.0"), false⟩,
  ⟨str ("@executable_path/../lib/libpython3.12.dylib"), mpv ("3.12.0"), false⟩,
  ⟨str ("@executable_path/../lib/libpython3.12d.dylib"), mpv ("3.12.0"), false⟩,
  ⟨str ("@executable_path/../lib/libpython3.13.dylib"), mpv ("3.13.0"), false⟩,
  ⟨str ("@executable_path/../lib/libpython3.13d.dylib"), mpv ("3.13.0"), false⟩,
  ⟨str ("@executable_path/../lib/libpython3.13t.dylib"), mpv ("3.13.0"), false⟩,
  ⟨str ("@executable_path/../lib/libpython3.13td.dylib"), mpv ("3.13.0"), false⟩,
  ⟨str ("@executable_path/../lib/libpython3.14.dylib"), mpv ("3.14.0"), false⟩,
  ⟨str ("@executable_path/../lib/libpython3.14d.dylib"), mpv ("3.14.0"), false⟩,
  ⟨str ("@executable_path/../lib/libpython3.14t.dylib"), mpv ("3.14.0"), false⟩,
  ⟨str ("@executable_path/../lib/libpython3.14td.dylib"), mpv ("3.14.0"), false⟩,
  ⟨str ("/System/Library/Frameworks/AppKit.framework/Versions/C/AppKit"), mpv ("45.0.0"), true⟩,
  ⟨str ("/System/Library/Frameworks/ApplicationServices.framework/Versions/A/ApplicationServices"), mpv ("1.0.0"), true⟩,
  ⟨str ("/System/Library/Frameworks/Carbon.framework/Versions/A/Carbon"), mpv ("2.0.0"), true⟩,
  ⟨str ("/System/Library/Frameworks/Cocoa.framework/Versions/A/Cocoa"), mpv ("1.0.0"), true⟩,
  ⟨str ("/System/Library/Frameworks/CoreFoundation.framework/Versions/A/CoreFoundation"), mpv ("150.0.0"), true⟩,
  ⟨str ("/System/Library/Frameworks/CoreGraphics.framework/Versions/A/CoreGraphics"), mpv ("64.0.0"), true⟩,
  ⟨str ("/System/Library/Frameworks/CoreServices.framework/Versions/A/CoreServices"), mpv ("1.0.0"), true⟩,
  ⟨str ("/System/Library/Frameworks/CoreText.framework/Versions/A/CoreText"), mpv ("1.0.0"), true⟩,
  ⟨str ("/System/Library/Frameworks/Foundation.framework/Versions/C/Foundation"), mpv ("300.0.0"), true⟩,
  ⟨str ("/System/Library/Frameworks/IOKit.framework/Versions/A/IOKit"), mpv ("1.0.0"), true⟩,
  ⟨str ("/System/Library/Frameworks/QuartzCore.framework/Versions/A/QuartzCore"), mpv ("1.2.0"), true⟩,
  ⟨str ("/System/Library/Frameworks/SystemConfiguration.framework/Versions/A/SystemConfiguration"), mpv ("1.0.0"), true⟩,
  ⟨str ("/usr/lib/libedit.3.dylib"), mpv ("2.0.0"), true⟩,
  ⟨str ("/usr/lib/libncurses.5.4.dylib"), mpv ("5.4.0"), true⟩,
  ⟨str ("/usr/lib/libobjc.A.dylib"), mpv ("1.0.0"), true⟩,
  ⟨str ("/usr/lib/libpanel.5.4.dylib"), mpv ("5.4.0"), true⟩,
  ⟨str ("/usr/lib/libSystem.B.dylib"), mpv ("1.0.0"), true⟩,
  ⟨str ("/usr/lib/libz.1.dylib"), mpv ("1.0.0"), true⟩]

def IOS_ALLOWED_DYLIBS : List MachOAllowedDylib := [
  ⟨str ("@executable_path/../lib/libpython3.9.dylib"), mpv ("3.9.0"), false⟩,
  ⟨str ("@executable_path/../lib/libpython3.9d.dylib"), mpv ("3.9.0"), false⟩,
  ⟨str ("@executable_path/../lib/libpython3.10.dylib"), mpv ("3.10.0"), false⟩,
  ⟨str ("@executable_path/../lib/libpython3.10d.dylib"), mpv ("3.10.0"), false⟩,
  ⟨str ("@executable_path/../lib/libpython3.11.dylib"), mpv ("3.11.0"), false⟩,
  ⟨str ("@executable_path/../lib/libpython3.11d.dylib"), mpv ("3.11.0"), false⟩,
  ⟨str ("/System/Library/Frameworks/CoreFoundation.framework/CoreFoundation"), mpv ("150.0.0"), false⟩,
  ⟨str ("/usr/lib/libSystem.B.dylib"), mpv ("1.0.0"), true⟩,
  ⟨str ("/usr/lib/libz.1.dylib"), mpv ("1.0.0"), true⟩]

/-- Model of `allowed_dylibs_for_triple` (validation.rs:793). -/
def allowed_dylibs_for_triple (triple : Str) : List MachOAllowedDylib :=
  if triple = str ("aarch64-apple-darwin") then DARWIN_ALLOWED_DYLIBS
  else if triple = str ("x86_64-apple-darwin") then DARWIN_ALLOWED_DYLIBS
  else if triple = str ("aarch64-apple-ios") then IOS_ALLOWED_DYLIBS
  else if triple = str ("x86_64-apple-ios") then IOS_ALLOWED_DYLIBS
  else []

/-- `DEPENDENCY_PACKAGE_SYMBOLS` (validation.rs:518). -/
def DEPENDENCY_PACKAGE_SYMBOLS : List Str := [
  str ("XClearWindow"), str ("XFlush"),
  str ("BIO_ADDR_new"), str ("BN_new"), str ("DH_new"),
  str ("SSL_extension_supported"), str ("SSL_read"), str ("CRYPTO_memcmp"),
  str ("ecp_nistz256_neg"), str ("OPENSSL_instrument_bus"), str ("x25519_fe64_add"),
  str ("__txn_begin"),
  str ("rl_prompt"), str ("readline"), str ("current_history"), str ("history_expand"),
  str ("ffi_call"), str ("ffi_type_void"),
  str ("new_field"), str ("set_field_term"), str ("set_menu_init"), str ("winstr"),
  str ("gdbm_close"), str ("gdbm_import"),
  str ("sqlite3_initialize"), str ("sqlite3_close"),
  str ("xcb_create_window"), str ("xcb_get_property"),
  str ("deflateEnd"), str ("gzclose"), str ("inflate"),
  str ("Tix_DItemCreate"), str ("Tix_GrFormat"),
  str ("lzma_index_init"), str ("lzma_stream_encoder"),
  str ("Tcl_Alloc"), str ("Tcl_ChannelName"), str ("Tcl_CreateInterp"),
  str ("TkBindInit"), str ("TkCreateFrame"), str ("Tk_FreeGC")]

/-! ### Mach-O file model (oracle for the `object` crate) -/

/-- Parsed Mach-O header fields consulted by `validate_macho`. -/
structure MachHeaderM where
  cputype : Nat
  filetype : Nat
  flags : Nat
deriving DecidableEq, Repr

/-- A `Dylib` load command's fields consulted by `validate_macho`. -/
structure DylibCommandM where
  name : Str
  compatibility_version : Nat
deriving DecidableEq, Repr

/-- An `nlist` symbol-table entry, with the `object` crate accessors
modelled as fields (`undefined` is `is_undefined()`). -/
structure NlistM where
  name : Str
  undefined : Bool
  n_desc : Nat
  n_type : Nat
deriving DecidableEq, Repr

/-- `object`'s `Nlist::library_ordinal`: the high byte of `n_desc`. -/
def NlistM.library_ordinal (sym : NlistM) : Nat := (sym.n_desc >>> 8) &&& 255

/-- The load-command variants consulted by `validate_macho`; all other
variants fall into `otherCommand` (the `_ => {}` arm). -/
inductive LoadCommandM
  | buildVersion (minos sdk : Nat)
  | versionMin (version sdk : Nat)
  | dylib (cmd : DylibCommandM)
  | symtab (symbols : List NlistM)
  | otherCommand
deriving DecidableEq, Repr

/-- `struct MachOSymbol` (validation.rs:1087). -/
structure MachOSymbolM where
  name : Str
  library_ordinal : Nat
  weak : Bool
deriving DecidableEq, Repr

/-- `object::SymbolScope` as computed in the symtab arm. -/
inductive ScopeM
  | unknown
  | compilation
  | linkage
  | dynamicScope
deriving DecidableEq, Repr

/-- State of the load-command walk in `validate_macho`. -/
structure MachoScanState where
  dylib_names : List Str
  undefined : List MachOSymbolM
  target_version : Option SemVer
  sdk_version : Option SemVer
  ctx : ValidationContext
deriving DecidableEq, Repr

/-- Per-symbol body of the `Symtab` arm of `validate_macho`
(validation.rs:1204–1260). -/
def machoSymtabStep (filetype : Nat) (path : Str) (st : MachoScanState)
    (sym : NlistM) : MachoScanState :=
  let st :=
    if sym.undefined then
      { st with undefined := st.undefined ++
          [⟨sym.name, sym.library_ordinal, sym.n_desc &&& N_WEAK_REF ≠ 0⟩] }
    else st
  if filetype ≠ MH_OBJECT then
    let scope :=
      if sym.n_type &&& MACHO_N_TYPE = MACHO_N_UNDF then ScopeM.unknown
      else if sym.n_type &&& MACHO_N_EXT = 0 then ScopeM.compilation
      else if sym.n_type &&& MACHO_N_PEXT ≠ 0 then ScopeM.linkage
      else ScopeM.dynamicScope
    let search_name :=
      match sym.name with
      | '_' :: v => v
      | _ => sym.name
    let st :=
      if DEPENDENCY_PACKAGE_SYMBOLS.contains search_name ∧ scope = ScopeM.dynamicScope then
        { st with ctx := pushErr st.ctx (.machoDependencySymbolExported path sym.name) }
      else st
    match fileName path with
    | some fname =>
      if startsWithStr (str ("libpython")) fname ∧ endsWithStr (str (".dylib")) fname
          ∧ scope = ScopeM.dynamicScope then
        { st with ctx := { st.ctx with libpython_exported_symbols := (setInsert search_name st.ctx.libpython_exported_symbols) } }
      else st
    | none => st
  else st

/-- One load command of the walk in `validate_macho`
(validation.rs:1150–1264). -/
def machoScanStep (triple : Str) (filetype : Nat) (path : Str)
    (st : MachoScanState) (cmd : LoadCommandM) : MachoScanState :=
  match cmd with
  | .buildVersion minos sdk =>
    let version := parse_version_nibbles sdk
    let st :=
      if SemVer.ltb ⟨0, 0, 0⟩ version then { st with sdk_version := some version } else st
    { st with target_version := some (parse_version_nibbles minos) }
  | .versionMin ver sdk =>
    let version := parse_version_nibbles sdk
    let st :=
      if SemVer.ltb ⟨0, 0, 0⟩ version then { st with sdk_version := some version } else st
    { st with target_version := some (parse_version_nibbles ver) }
  | .dylib cmd =>
    let lib := cmd.name
    let st := { st with dylib_names := st.dylib_names ++ [lib] }
    let allowed := allowed_dylibs_for_triple triple
    match allowed.find? (fun l => l.name == lib) with
    | some entry =>
      let load_version := MachOPackedVersion.fromU32 cmd.compatibility_version
      let st :=
        if entry.max_compatibility_version.value < load_version.value then
          { st with ctx := (pushErr st.ctx (.machoTooNewVersion path lib load_version entry.max_compatibility_version)) }
        else st
      { st with ctx := { st.ctx with seen_dylibs := setInsert lib st.ctx.seen_dylibs } }
    | none =>
      { st with ctx := pushErr st.ctx (.machoIllegalLibrary path lib) }
  | .symtab symbols => symbols.foldl (machoSymtabStep filetype path) st
  | .otherCommand => st

/-- The full load-command walk. -/
def machoScan (triple : Str) (filetype : Nat) (path : Str)
    (st : MachoScanState) (cmds : List LoadCommandM) : MachoScanState :=
  cmds.foldl (machoScanStep triple filetype path) st

/-- The undefined-symbol resolution loop of `validate_macho`
(validation.rs:1290–1311), run only for non-object files. -/
def machoResolveUndefined (dylib_names : List Str) (path : Str)
    (ctx : ValidationContext) : List MachOSymbolM → RunResult ValidationContext
  | [] => .ok ctx
  | sym :: rest =>
    if sym.library_ordinal = SELF_LIBRARY_ORDINAL then
      machoResolveUndefined dylib_names path ctx rest
    else if sym.library_ordinal < MAX_LIBRARY_ORDINAL then
      match dylib_names.get? (sym.library_ordinal - 1) with
      | none => .err .symbolLibraryUnresolved
      | some lib =>
        let ctx :=
          if sym.weak then
            { ctx with macho_undefined_symbols_weak :=
                ctx.macho_undefined_symbols_weak.insert lib sym.name path }
          else
            { ctx with macho_undefined_symbols_strong :=
                ctx.macho_undefined_symbols_strong.insert lib sym.name path }
        machoResolveUndefined dylib_names path ctx rest
    else
      machoResolveUndefined dylib_names path ctx rest

/-- `wanted_cpu_type` lookup in `validate_macho` (Err on unhandled triple). -/
def machoWantedCpu (triple : Str) : Option Nat :=
  if triple = str ("aarch64-apple-darwin") then some CPU_TYPE_ARM64
  else if triple = str ("aarch64-apple-ios") then some CPU_TYPE_ARM64
  else if triple = str ("x86_64-apple-darwin") then some CPU_TYPE_X86_64
  else if triple = str ("x86_64-apple-ios") then some CPU_TYPE_X86_64
  else none

/-- The two advertised-version comparisons at the end of the load-command
walk (validation.rs:1266–1286). -/
def machoVersionChecks (advTarget advSdk : SemVer) (path : Str)
    (scan : MachoScanState) : ValidationContext :=
  let ctx := scan.ctx
  let ctx :=
    match scan.target_version with
    | some actual =>
      if actual ≠ advTarget then
        pushErr ctx (.machoTargetsWrongSdk path actual advTarget)
      else ctx
    | none => ctx
  match scan.sdk_version with
  | some actual =>
    if actual ≠ advSdk then
      pushErr ctx (.machoBuiltWrongSdk path actual advSdk)
    else ctx
  | none => ctx

/-- The CPU-type and two-level-namespace header checks at the top of
`validate_macho` (validation.rs:1127–1141). -/
def machoHeaderChecks (ctx : ValidationContext) (wanted_cpu_type : Nat)
    (path : Str) (header : MachHeaderM) : ValidationContext :=
  let ctx :=
    if header.cputype ≠ wanted_cpu_type then
      pushErr ctx (.machoWrongCpuType path header.cputype wanted_cpu_type)
    else ctx
  if header.filetype ≠ MH_OBJECT ∧ header.flags &&& MH_TWOLEVEL = 0 then
    pushErr ctx (.machoNoTwoLevel path)
  else ctx

/-- Model of `validate_macho` (validation.rs:1104–1314). The caller's
`&mut ValidationContext` is threaded as `ctx`; header and load commands are
the oracle results of the `object` crate's parse. -/
def validate_macho (ctx : ValidationContext) (target_triple : Str)
    (advertised_target_version advertised_sdk_version : Str) (path : Str)
    (header : MachHeaderM) (cmds : List LoadCommandM) : RunResult ValidationContext :=
  match semverParse (advertised_target_version ++ str (".0")) with
  | none => .err (.semverParseFailed advertised_target_version)
  | some advTarget =>
  match semverParse (advertised_sdk_version ++ str (".0")) with
  | none => .err (.semverParseFailed advertised_sdk_version)
  | some advSdk =>
  match machoWantedCpu target_triple with
  | none => .err (.unhandledMachoTriple target_triple)
  | some wanted_cpu_type =>
  let ctx := machoHeaderChecks ctx wanted_cpu_type path header
  let scan := machoScan target_triple header.filetype path ⟨[], [], none, none, ctx⟩ cmds
  let ctx := machoVersionChecks advTarget advSdk path scan
  if header.filetype ≠ MH_OBJECT then
    machoResolveUndefined scan.dylib_names path ctx scan.undefined
  else .ok ctx

/-- Discriminator for the SDK-mismatch error. -/
def isSdkMismatchErr : VError → Bool
  | .machoBuiltWrongSdk _ _ _ => true
  | _ => false

/-- Discriminator for the too-new-compatibility-version error. -/
def isTooNewVersionErr : VError → Bool
  | .machoTooNewVersion _ _ _ _ => true
  | _ => false

/-- The SDK-version update a single load command performs on the scan
state (characterization of the `BuildVersion`/`VersionMin` arms). -/
def cmdSdkUpdate (acc : Option SemVer) : LoadCommandM → Option SemVer
  | .buildVersion _ sdk =>
    if SemVer.ltb ⟨0, 0, 0⟩ (parse_version_nibbles sdk) then
      some (parse_version_nibbles sdk)
    else acc
  | .versionMin _ sdk =>
    if SemVer.ltb ⟨0, 0, 0⟩ (parse_version_nibbles sdk) then
      some (parse_version_nibbles sdk)
    else acc
  | _ => acc

/-- The SDK version retained after walking all load commands: the last
advertised version that is strictly greater than `0.0.0`. -/
def lastNonZeroSdk (cmds : List LoadCommandM) (acc : Option SemVer) : Option SemVer :=
  cmds.foldl cmdSdkUpdate acc

/-- Whether a load command is a `Dylib` command that matches an allow-list
entry and exceeds that entry's maximum compatibility version. -/
def dylibTooNew (triple : Str) : LoadCommandM → Bool
  | .dylib d =>
    match (allowed_dylibs_for_triple triple).find? (fun l => l.name == d.name) with
    | some entry => decide (entry.max_compatibility_version.value < d.compatibility_version)
    | none => false
  | _ => false

/-! ### Seen-dylib bookkeeping (for C8) -/

/-- The set of `required: true` dylib names for a triple, as built by the
whole-archive check in `validate_distribution` (validation.rs:1864–1869). -/
def wantedDylibSet (triple : Str) : BSet Str :=
  (allowed_dylibs_for_triple triple).foldl
    (fun s d => if d.required then setInsert d.name s else s) []

/-- The `required library dependency {} not seen` errors emitted by the
whole-archive check (validation.rs:1871–1875): one error per wanted dylib
name absent from the seen set. -/
def requiredNotSeenErrors (triple : Str) (seen : BSet Str) : List VError :=
  ((wantedDylibSet triple).filter (fun p => (lookupKey p.1 seen).isNone)).map
    (fun p => .requiredLibraryNotSeen p.1)

/-! ### ELF constants (values as in `object::elf`) -/

def ET_EXEC : Nat := 2

def ET_DYN : Nat := 3

def STB_GLOBAL : Nat := 1

def STB_WEAK : Nat := 2

def STV_DEFAULT : Nat := 0

def STV_HIDDEN : Nat := 2

def SHT_DYNSYM : Nat := 11

def EM_386 : Nat := 3

def EM_MIPS : Nat := 8

def EM_PPC64 : Nat := 21

def EM_S390 : Nat := 22

def EM_ARM : Nat := 40

def EM_X86_64 : Nat := 62

def EM_AARCH64 : Nat := 183

/-! ### ELF policy tables (`src/validation.rs` 65–245, 509–512) -/

def ELF_ALLOWED_LIBRARIES : List Str := [
  str ("libc.so.6"), str ("libdl.so.2"), str ("libm.so.6"),
  str ("libpthread.so.0"), str ("librt.so.1"), str ("libutil.so.1")]

/-- `ELF_ALLOWED_LIBRARIES_BY_TRIPLE` (validation.rs:217). -/
def elfAllowedLibrariesByTriple (triple : Str) : Option (List Str) :=
  if triple = str ("armv7-unknown-linux-gnueabi") then
    some [str ("ld-linux.so.3"), str ("libgcc_s.so.1")]
  else if triple = str ("armv7-unknown-linux-gnueabihf") then
    some [str ("ld-linux-armhf.so.3"), str ("libgcc_s.so.1")]
  else if triple = str ("i686-unknown-linux-gnu") then
    some [str ("ld-linux-x86-64.so.2")]
  else if triple = str ("mips-unknown-linux-gnu") then
    some [str ("ld.so.1"), str ("libatomic.so.1")]
  else if triple = str ("mipsel-unknown-linux-gnu") then
    some [str ("ld.so.1"), str ("libatomic.so.1")]
  else if triple = str ("mips64el-unknown-linux-gnuabi64") then some []
  else if triple = str ("ppc64le-unknown-linux-gnu") then
    some [str ("ld64.so.1"), str ("ld64.so.2")]
  else if triple = str ("s390x-unknown-linux-gnu") then some [str ("ld64.so.1")]
  else if triple = str ("x86_64-unknown-linux-gnu") then
    some [str ("ld-linux-x86-64.so.2")]
  else if triple = str ("x86_64_v2-unknown-linux-gnu") then
    some [str ("ld-linux-x86-64.so.2")]
  else if triple = str ("x86_64_v3-unknown-linux-gnu") then
    some [str ("ld-linux-x86-64.so.2")]
  else if triple = str ("x86_64_v4-unknown-linux-gnu") then
    some [str ("ld-linux-x86-64.so.2")]
  else none

def ELF_BANNED_SYMBOLS : List Str := [str ("pthread_yield")]

/-- `GLIBC_MAX_VERSION_BY_TRIPLE` (validation.rs:139): the maximum glibc
symbol version allowed per triple, as a `version_compare` numeric version
(list of numeric components). -/
def glibcMaxVersionByTriple (triple : Str) : Option (List Nat) :=
  if triple = str ("aarch64-unknown-linux-gnu") then some [2, 17]
  else if triple = str ("armv7-unknown-linux-gnueabi") then some [2, 17]
  else if triple = str ("armv7-unknown-linux-gnueabihf") then some [2, 17]
  else if triple = str ("i686-unknown-linux-gnu") then some [2, 17]
  else if triple = str ("mips-unknown-linux-gnu") then some [2, 19]
  else if triple = str ("mipsel-unknown-linux-gnu") then some [2, 19]
  else if triple = str ("mips64el-unknown-linux-gnuabi64") then some [2, 19]
  else if triple = str ("ppc64le-unknown-linux-gnu") then some [2, 17]
  else if triple = str ("s390x-unknown-linux-gnu") then some [2, 17]
  else if triple = str ("x86_64-unknown-linux-gnu") then some [2, 17]
  else if triple = str ("x86_64_v2-unknown-linux-gnu") then some [2, 17]
  else if triple = str ("x86_64_v3-unknown-linux-gnu") then some [2, 17]
  else if triple = str ("x86_64_v4-unknown-linux-gnu") then some [2, 17]
  else if triple = str ("x86_64-unknown-linux-musl") then some [1]
  else if triple = str ("x86_64_v2-unknown-linux-musl") then some [1]
  else if triple = str ("x86_64_v3-unknown-linux-musl") then some [1]
  else if triple = str ("x86_64_v4-unknown-linux-musl") then some [1]
  else none

/-- `wanted_cpu_type` in `validate_elf` (validation.rs:860); `none` models
the `panic!` arm for unhandled triples. -/
def elfWantedCpu (triple : Str) : Option Nat :=
  if triple = str ("aarch64-unknown-linux-gnu") then some EM_AARCH64
  else if triple = str ("armv7-unknown-linux-gnueabi") then some EM_ARM
  else if triple = str ("armv7-unknown-linux-gnueabihf") then some EM_ARM
  else if triple = str ("i686-unknown-linux-gnu") then some EM_386
  else if triple = str ("mips-unknown-linux-gnu") then some EM_MIPS
  else if triple = str ("mipsel-unknown-linux-gnu") then some EM_MIPS
  else if triple = str ("mips64el-unknown-linux-gnuabi64") then some 0
  else if triple = str ("ppc64le-unknown-linux-gnu") then some EM_PPC64
  else if triple = str ("s390x-unknown-linux-gnu") then some EM_S390
  else if triple = str ("x86_64-unknown-linux-gnu") then some EM_X86_64
  else if triple = str ("x86_64_v2-unknown-linux-gnu") then some EM_X86_64
  else if triple = str ("x86_64_v3-unknown-linux-gnu") then some EM_X86_64
  else if triple = str ("x86_64_v4-unknown-linux-gnu") then some EM_X86_64
  else if triple = str ("x86_64-unknown-linux-musl") then some EM_X86_64
  else if triple = str ("x86_64_v2-unknown-linux-musl") then some EM_X86_64
  else if triple = str ("x86_64_v3-unknown-linux-musl") then some EM_X86_64
  else if triple = str ("x86_64_v4-unknown-linux-musl") then some EM_X86_64
  else none

/-! ### version_compare model

`version_compare::Version` comparison, modelled for dotted numeric
versions (the only shape the repository compares: `GLIBC_X.Y` suffixes
against table entries like `2.17`). Non-numeric version parts are outside
this model and are treated as a parse failure. -/

/-- Numeric comparison of version-part lists; a missing part compares like
trailing zeros (`2.17` = `2.17.0`). -/
def versionCompareCmp : List Nat → List Nat → Ordering
  | [], ys => if ys.all (fun y => y = 0) then .eq else .lt
  | x :: xs, [] => if x = 0 then versionCompareCmp xs [] else .gt
  | x :: xs, y :: ys =>
    if x < y then .lt else if y < x then .gt else versionCompareCmp xs ys

/-- Model of `version_compare::Version::from` on dotted numeric versions. -/
def versionFrom (s : Str) : Option (List Nat) :=
  (splitOnChar '.' s).mapM
    (fun p => if p ≠ [] ∧ p.all Char.isDigit then some (digitsToNat p) else none)

/-! ### More string helpers -/

/-- Model of `str::contains` (substring search). -/
def strContains (hay needle : Str) : Bool :=
  match hay with
  | [] => needle.isEmpty
  | _ :: t => needle.isPrefixOf hay || strContains t needle

def rfindStrAux (needle : Str) : Str → Nat → Option Nat → Option Nat
  | [], _, best => best
  | c :: t, i, best =>
    rfindStrAux needle t (i + 1) (if needle.isPrefixOf (c :: t) then some i else best)

/-- Model of `str::rfind` for a nonempty needle (index of the last
occurrence; indices count characters, which coincides with Rust's byte
indices on the ASCII strings involved). -/
def rfindStr (hay needle : Str) : Option Nat := rfindStrAux needle hay 0 none

/-- Model of `str::splitn(2, sep)`: split at the first occurrence only. -/
def splitn2Aux (sep : Char) : Str → Str → List Str
  | [], acc => [acc.reverse]
  | c :: t, acc => if c = sep then [acc.reverse, t] else splitn2Aux sep t (c :: acc)

def splitn2 (sep : Char) (s : Str) : List Str := splitn2Aux sep s []

/-- Model of `BTreeSet::contains`. -/
def setMemB [LinearOrder α] (x : α) (s : BSet α) : Bool := (lookupKey x s).isSome

/-! ### PYTHON.json model (`src/json.rs`)

Only the fields consulted by the validators are modelled; the remaining
fields of the serde records are never read by `validate_distribution` or
the per-format validators. -/

structure LinkEntryM where
  name : Str
  system : Option Bool
deriving DecidableEq, Repr

structure PythonBuildExtensionInfoM where
  in_core : Bool
  init_fn : Str
  links : List LinkEntryM
  objs : List Str
  shared_lib : Option Str
deriving DecidableEq, Repr

structure PythonBuildCoreInfoM where
  objs : List Str
  links : List LinkEntryM
deriving DecidableEq, Repr

structure PythonBuildInfoM where
  core : PythonBuildCoreInfoM
  extensions : List (Str × List PythonBuildExtensionInfoM)
deriving DecidableEq, Repr

structure PythonJsonMainM where
  apple_sdk_canonical_name : Option Str
  apple_sdk_deployment_target : Option Str
  apple_sdk_platform : Option Str
  apple_sdk_version : Option Str
  build_info : PythonBuildInfoM
  crt_features : List Str
  python_config_vars : List (Str × Str)
  python_major_minor_version : Str
  python_paths : List (Str × Str)
  python_platform_tag : Str
  version : Str
deriving DecidableEq, Repr

/-- Model of `PythonJsonMain::all_object_paths`. -/
def PythonJsonMainM.all_object_paths (j : PythonJsonMainM) : BSet Str :=
  let res := j.build_info.core.objs.foldl (fun s x => setInsert x s) []
  j.build_info.extensions.foldl
    (fun res p => p.2.foldl
      (fun res ext => ext.objs.foldl (fun res x => setInsert x res) res) res) res

/-- The `system_links` set computed at the top of `validate_elf`
(validation.rs:844–858). -/
def systemLinks (j : PythonJsonMainM) : BSet Str :=
  let s := j.build_info.core.links.foldl
    (fun s l => if l.system.getD false then setInsert l.name s else s) []
  j.build_info.extensions.foldl
    (fun s p => p.2.foldl
      (fun s v => v.links.foldl
        (fun s l => if l.system.getD false then setInsert l.name s else s) s) s) s

/-! ### ELF file model (oracle for the `object` crate) -/

/-- A dynamic-section entry: whether its tag is `DT_NEEDED` and the
resolved library name string. -/
structure DynEntryM where
  isNeeded : Bool
  lib : Str
deriving DecidableEq, Repr

/-- An ELF symbol with the accessor results consulted by `validate_elf`;
`versionName` is the version-record name the `versions` oracle yields for
this symbol's index in `.dynsym`. -/
structure ElfSymM where
  name : Str
  versionName : Option Str
  isUndefined : Bool
  stBind : Nat
  stVisibility : Nat
deriving DecidableEq, Repr

structure ElfSectionM where
  shType : Nat
  dynamic : Option (List DynEntryM)
  symbols : Option (List ElfSymM)
deriving DecidableEq, Repr

structure ElfFileM where
  e_machine : Nat
  e_type : Nat
  versionsPresent : Bool
  sections : List ElfSectionM
deriving DecidableEq, Repr

/-- The `allowed_libraries` list built in `validate_elf`
(validation.rs:892–923). -/
def elfAllowedLibraries (target_triple python_major_minor path : Str) : List Str :=
  let libs := ELF_ALLOWED_LIBRARIES
  let libs := libs ++ (elfAllowedLibrariesByTriple target_triple).getD []
  let libs := libs ++
    [str ("$ORIGIN/../lib/libpython") ++ python_major_minor ++ str (".so.1.0"),
      str ("$ORIGIN/../lib/libpython") ++ python_major_minor ++ str ("d.so.1.0"),
      str ("$ORIGIN/../lib/libpython") ++ python_major_minor ++ str ("t.so.1.0"),
      str ("$ORIGIN/../lib/libpython") ++ python_major_minor ++ str ("td.so.1.0")]
  match fileName path with
  | some f =>
    if startsWithStr (str ("_crypt")) f then libs ++ [str ("libcrypt.so.1")] else libs
  | none => libs

/-- One `DT_NEEDED` dynamic entry's checks (validation.rs:938–992). -/
def elfDynStep (path : Str) (allowed_libraries : List Str)
    (system_links : BSet Str) (ctx : ValidationContext) (entry : DynEntryM) :
    ValidationContext :=
  if entry.isNeeded then
    let lib := entry.lib
    let ctx :=
      if ¬ allowed_libraries.contains lib then
        pushErr ctx (.elfIllegalLibrary path lib)
      else ctx
    let requires_annot := ¬ strContains lib (str ("libpython"))
      ∧ ¬ startsWithStr (str ("ld-linux")) lib
      ∧ ¬ startsWithStr (str ("ld64.so")) lib
      ∧ ¬ startsWithStr (str ("ld.so")) lib
      ∧ ¬ startsWithStr (str ("libc.so")) lib
      ∧ ¬ startsWithStr (str ("libgcc_s.so")) lib
    if requires_annot then
      if startsWithStr (str ("lib")) lib then
        match rfindStr lib (str (".so")) with
        | some idx =>
          let lib_name := (lib.drop 3).take (idx - 3)
          if ¬ setMemB lib_name system_links then
            pushErr ctx (.elfNoSystemLinkEntry path lib)
          else ctx
        | none => pushErr ctx (.elfNotSoExt path lib)
      else pushErr ctx (.elfNoLibStart path lib)
    else ctx
  else ctx

/-- The undefined-symbol checks of the symbol loop (validation.rs:1024–1051):
banned symbols and too-new glibc symbol versions. The `expect` on
`version_compare::Version::from` is a panic. -/
def elfSymUndefinedChecks (wanted_glibc_max_version : List Nat) (path : Str)
    (version_version : Option Str) (ctx : ValidationContext) (sym : ElfSymM) :
    RunResult ValidationContext :=
  if sym.isUndefined then
    let ctx :=
      if ELF_BANNED_SYMBOLS.contains sym.name then
        pushErr ctx (.elfBannedSymbol path sym.name)
      else ctx
    match version_version with
    | some version =>
      match splitn2 '_' version with
      | [p0, p1] =>
        if p0 = str ("GLIBC") then
          match versionFrom p1 with
          | none => .panicked
          | some v =>
            if versionCompareCmp v wanted_glibc_max_version = .gt then
              .ok (pushErr ctx (.elfGlibcTooNew path sym.name v wanted_glibc_max_version))
            else .ok ctx
        else .ok ctx
      | _ => .ok ctx
    | none => .ok ctx
  else .ok ctx

/-- The visibility checks of the symbol loop (validation.rs:1053–1079). -/
def elfSymVisibilityChecks (e_type : Nat) (path : Str)
    (ctx : ValidationContext) (sym : ElfSymM) : ValidationContext :=
  if e_type = ET_EXEC ∨ e_type = ET_DYN then
    let ctx :=
      if DEPENDENCY_PACKAGE_SYMBOLS.contains sym.name
          ∧ (sym.stBind = STB_GLOBAL ∨ sym.stBind = STB_WEAK)
          ∧ sym.stVisibility ≠ STV_HIDDEN then
        pushErr ctx (.elfNonHiddenDependencySymbol path sym.name)
      else ctx
    match fileName path with
    | some filename =>
      if startsWithStr (str ("libpython")) filename
          ∧ endsWithStr (str (".so.1.0")) filename
          ∧ (sym.stBind = STB_GLOBAL ∨ sym.stBind = STB_WEAK)
          ∧ sym.stVisibility = STV_DEFAULT then
        { ctx with libpython_exported_symbols := (setInsert sym.name ctx.libpython_exported_symbols) }
      else ctx
    | none => ctx
  else ctx

/-- One symbol of the symbol loop of `validate_elf`. -/
def elfSymStep (wanted_glibc_max_version : List Nat) (e_type : Nat)
    (path : Str) (shType : Nat) (versionsPresent : Bool)
    (ctx : ValidationContext) (sym : ElfSymM) : RunResult ValidationContext := do
  let version_version :=
    if shType = SHT_DYNSYM ∧ versionsPresent then sym.versionName else none
  let ctx ← elfSymUndefinedChecks wanted_glibc_max_version path version_version ctx sym
  pure (elfSymVisibilityChecks e_type path ctx sym)

/-- One section of the section loop of `validate_elf`. -/
def elfSectionStep (wanted_glibc_max_version : List Nat) (e_type : Nat)
    (path : Str) (allowed_libraries : List Str) (system_links : BSet Str)
    (versionsPresent : Bool) (ctx : ValidationContext) (sect : ElfSectionM) :
    RunResult ValidationContext := do
  let ctx :=
    match sect.dynamic with
    | some entries => entries.foldl (elfDynStep path allowed_libraries system_links) ctx
    | none => ctx
  match sect.symbols with
  | some syms =>
    syms.foldlM
      (elfSymStep wanted_glibc_max_version e_type path sect.shType versionsPresent) ctx
  | none => pure ctx

/-- Model of `validate_elf` (validation.rs:835–1085). The parsed header,
sections, dynamic entries and symbols are the oracle results of the
`object` crate's parse. -/
def validate_elf (ctx : ValidationContext) (json : PythonJsonMainM)
    (target_triple python_major_minor path : Str) (elf : ElfFileM) :
    RunResult ValidationContext := do
  let system_links := systemLinks json
  match elfWantedCpu target_triple with
  | none => .panicked
  | some wanted_cpu_type =>
  let ctx :=
    if elf.e_machine ≠ wanted_cpu_type then
      pushErr ctx (.invalidElfMachineType path wanted_cpu_type elf.e_machine)
    else ctx
  let allowed_libraries := elfAllowedLibraries target_triple python_major_minor path
  match glibcMaxVersionByTriple target_triple with
  | none => .panicked
  | some wanted_glibc_max_version =>
    elf.sections.foldlM
      (elfSectionStep wanted_glibc_max_version elf.e_type path allowed_libraries
        system_links elf.versionsPresent) ctx

/-! ### Theorems about the ELF validator (C1) -/

/-- Discriminator for the too-new-glibc-symbol error. -/
def isGlibcTooNewErr : VError → Bool
  | .elfGlibcTooNew _ _ _ _ => true
  | _ => false

/-- The glibc error (if any) the undefined-symbol checks produce for one
symbol whose version string is `vv`. -/
def expectedGlibcOne (ceiling : List Nat) (path : Str) (sym : ElfSymM) :
    Option VError :=
  if sym.isUndefined then
    match sym.versionName with
    | some version =>
      match splitn2 '_' version with
      | [p0, p1] =>
        if p0 = str ("GLIBC") then
          match versionFrom p1 with
          | some v =>
            if versionCompareCmp v ceiling = .gt then
              some (.elfGlibcTooNew path sym.name v ceiling)
            else none
          | none => none
        else none
      | _ => none
    | none => none
  else none

/-- The glibc errors produced for a list of `.dynsym` symbols. -/
def expectedGlibcErrors (ceiling : List Nat) (path : Str)
    (syms : List ElfSymM) : List VError :=
  syms.filterMap (expectedGlibcOne ceiling path)

/-- The `GLIBC_` version suffix of the symbol (if any) parses as a numeric
version, so the `expect` in the symbol loop does not panic. -/
def glibcParseOk (sym : ElfSymM) : Bool :=
  if sym.isUndefined then
    match sym.versionName with
    | some version =>
      match splitn2 '_' version with
      | [p0, p1] => if p0 = str ("GLIBC") then (versionFrom p1).isSome else true
      | _ => true
    | none => true
  else true

/-! ### Path arithmetic (`std::path` / `normalize_path`)

Archive entry paths are `/`-separated relative paths. `Path::components`
drops empty components and `.`; we model paths as their display strings
and assume (as holds for tar entries) that they are written in canonical
component form, so string equality coincides with `PathBuf` equality. -/

/-- `Path::components` of a relative path: `/`-separated pieces with empty
components and `.` dropped. -/
def pathComponents (p : Str) : List Str :=
  (splitOnChar '/' p).filter (fun c => c ≠ [] ∧ c ≠ str ("."))

/-- Rejoin components with `/`. -/
def joinComponents : List Str → Str
  | [] => []
  | [c] => c
  | c :: rest => c ++ '/' :: joinComponents rest

/-- Model of `normalize_path::NormalizePath::normalize` on relative paths:
`..` pops the last kept component (a no-op at the root), other components
are pushed (`.` was already dropped by `pathComponents`). -/
def normalizeComponents : List Str → List Str → List Str
  | [], acc => acc.reverse
  | c :: rest, acc =>
    if c = str ("..") then normalizeComponents rest acc.tail
    else normalizeComponents rest (c :: acc)

/-- Model of `Path::starts_with` (component-wise prefix). -/
def pathStartsWith (p pre : Str) : Bool :=
  (pathComponents pre).isPrefixOf (pathComponents p)

/-- Model of `Path::with_file_name`. -/
def withFileName (p name : Str) : Str :=
  joinComponents ((pathComponents p).dropLast ++ [name])

/-- Model of `path.parent().unwrap().join(link_name).normalize()`
(validation.rs:1730); link names are assumed relative, as in the archives
being validated. -/
def symlinkTarget (path link : Str) : Str :=
  joinComponents
    (normalizeComponents ((pathComponents path).dropLast ++ pathComponents link) [])

/-- Model of `Path::join` (an absolute right operand replaces the left). -/
def pathJoin (a b : Str) : Str :=
  if startsWithStr (str ("/")) b then b
  else joinComponents (pathComponents a ++ pathComponents b)

/-! ### Remaining policy tables of `src/validation.rs` -/

/-- `RECOGNIZED_TRIPLES` (validation.rs:33–63). -/
def RECOGNIZED_TRIPLES : List Str := [
  str ("aarch64-apple-darwin"),
  str ("aarch64-apple-ios"),
  str ("aarch64-unknown-linux-gnu"),
  str ("armv7-unknown-linux-gnueabi"),
  str ("armv7-unknown-linux-gnueabihf"),
  str ("arm64-apple-tvos"),
  str ("i686-pc-windows-msvc"),
  str ("i686-unknown-linux-gnu"),
  str ("mips-unknown-linux-gnu"),
  str ("mipsel-unknown-linux-gnu"),
  str ("mips64el-unknown-linux-gnuabi64"),
  str ("ppc64le-unknown-linux-gnu"),
  str ("s390x-unknown-linux-gnu"),
  str ("thumbv7k-apple-watchos"),
  str ("x86_64-apple-darwin"),
  str ("x86_64-apple-ios"),
  str ("x86_64-apple-tvos"),
  str ("x86_64-apple-watchos"),
  str ("x86_64-pc-windows-msvc"),
  str ("x86_64-unknown-linux-gnu"),
  str ("x86_64_v2-unknown-linux-gnu"),
  str ("x86_64_v3-unknown-linux-gnu"),
  str ("x86_64_v4-unknown-linux-gnu"),
  str ("x86_64-unknown-linux-musl"),
  str ("x86_64_v2-unknown-linux-musl"),
  str ("x86_64_v3-unknown-linux-musl"),
  str ("x86_64_v4-unknown-linux-musl")]

/-- `PE_ALLOWED_LIBRARIES` (validation.rs:75–137). -/
def PE_ALLOWED_LIBRARIES : List Str := [
  str ("ADVAPI32.dll"),
  str ("api-ms-win-core-path-l1-1-0.dll"),
  str ("api-ms-win-crt-conio-l1-1-0.dll"),
  str ("api-ms-win-crt-convert-l1-1-0.dll"),
  str ("api-ms-win-crt-heap-l1-1-0.dll"),
  str ("api-ms-win-crt-environment-l1-1-0.dll"),
  str ("api-ms-win-crt-filesystem-l1-1-0.dll"),
  str ("api-ms-win-crt-locale-l1-1-0.dll"),
  str ("api-ms-win-crt-math-l1-1-0.dll"),
  str ("api-ms-win-crt-process-l1-1-0.dll"),
  str ("api-ms-win-crt-runtime-l1-1-0.dll"),
  str ("api-ms-win-crt-stdio-l1-1-0.dll"),
  str ("api-ms-win-crt-string-l1-1-0.dll"),
  str ("api-ms-win-crt-time-l1-1-0.dll"),
  str ("api-ms-win-crt-utility-l1-1-0.dll"),
  str ("bcrypt.dll"),
  str ("Cabinet.dll"),
  str ("COMCTL32.dll"),
  str ("COMDLG32.dll"),
  str ("CRYPT32.dll"),
  str ("GDI32.dll"),
  str ("IMM32.dll"),
  str ("IPHLPAPI.DLL"),
  str ("KERNEL32.dll"),
  str ("msi.dll"),
  str ("NETAPI32.dll"),
  str ("ole32.dll"),
  str ("OLEAUT32.dll"),
  str ("PROPSYS.dll"),
  str ("RPCRT4.dll"),
  str ("SHELL32.dll"),
  str ("SHLWAPI.dll"),
  str ("USER32.dll"),
  str ("USERENV.dll"),
  str ("VERSION.dll"),
  str ("VCRUNTIME140.dll"),
  str ("VCRUNTIME140_1.dll"),
  str ("WINMM.dll"),
  str ("WS2_32.dll"),
  str ("libcrypto-1_1.dll"),
  str ("libcrypto-1_1-x64.dll"),
  str ("libcrypto-3.dll"),
  str ("libcrypto-3-x64.dll"),
  str ("libffi-8.dll"),
  str ("libssl-1_1.dll"),
  str ("libssl-1_1-x64.dll"),
  str ("libssl-3.dll"),
  str ("libssl-3-x64.dll"),
  str ("python3.dll"),
  str ("python39.dll"),
  str ("python310.dll"),
  str ("python311.dll"),
  str ("python312.dll"),
  str ("python313.dll"),
  str ("python313t.dll"),
  str ("python314.dll"),
  str ("python314t.dll"),
  str ("sqlite3.dll"),
  str ("tcl86t.dll"),
  str ("tk86t.dll")]

/-- `PLATFORM_TAG_BY_TRIPLE` (validation.rs:478–507); a `HashMap`, modelled
as its (duplicate-free) entry list with first-match lookup. -/
def PLATFORM_TAG_BY_TRIPLE : List (Str × Str) := [
  (str ("aarch64-apple-darwin"), str ("macosx-11.0-arm64")),
  (str ("aarch64-apple-ios"), str ("iOS-aarch64")),
  (str ("aarch64-unknown-linux-gnu"), str ("linux-aarch64")),
  (str ("armv7-unknown-linux-gnueabi"), str ("linux-arm")),
  (str ("armv7-unknown-linux-gnueabihf"), str ("linux-arm")),
  (str ("i686-pc-windows-msvc"), str ("win32")),
  (str ("i686-unknown-linux-gnu"), str ("linux-i686")),
  (str ("mips-unknown-linux-gnu"), str ("linux-mips")),
  (str ("mipsel-unknown-linux-gnu"), str ("linux-mipsel")),
  (str ("mips64el-unknown-linux-gnuabi64"), str ("todo")),
  (str ("ppc64le-unknown-linux-gnu"), str ("linux-powerpc64le")),
  (str ("s390x-unknown-linux-gnu"), str ("linux-s390x")),
  (str ("x86_64-apple-darwin"), str ("macosx-10.15-x86_64")),
  (str ("x86_64-apple-ios"), str ("iOS-x86_64")),
  (str ("x86_64-pc-windows-msvc"), str ("win-amd64")),
  (str ("x86_64-unknown-linux-gnu"), str ("linux-x86_64")),
  (str ("x86_64_v2-unknown-linux-gnu"), str ("linux-x86_64")),
  (str ("x86_64_v3-unknown-linux-gnu"), str ("linux-x86_64")),
  (str ("x86_64_v4-unknown-linux-gnu"), str ("linux-x86_64")),
  (str ("x86_64-unknown-linux-musl"), str ("linux-x86_64")),
  (str ("x86_64_v2-unknown-linux-musl"), str ("linux-x86_64")),
  (str ("x86_64_v3-unknown-linux-musl"), str ("linux-x86_64")),
  (str ("x86_64_v4-unknown-linux-musl"), str ("linux-x86_64"))]

/-- `PYTHON_EXPORTED_SYMBOLS` (validation.rs:576–581). -/
def PYTHON_EXPORTED_SYMBOLS : List Str :=
  [str ("Py_Initialize"), str ("PyList_New"), str ("Py_CompileString")]

/-- `WANTED_WINDOWS_STATIC_PATHS` (validation.rs:583–594), a `BTreeSet`. -/
def WANTED_WINDOWS_STATIC_PATHS : BSet Str :=
  [str ("python/build/lib/libffi.lib"),
    str ("python/build/lib/libcrypto_static.lib"),
    str ("python/build/lib/liblzma.lib"),
    str ("python/build/lib/libssl_static.lib"),
    str ("python/build/lib/sqlite3.lib")].foldl (fun s x => setInsert x s) []

/-- `GLOBALLY_BANNED_EXTENSIONS` (validation.rs:596–599). -/
def GLOBALLY_BANNED_EXTENSIONS : List Str := [str ("nis")]

/-- `GLOBAL_EXTENSIONS` (validation.rs:601–677). -/
def GLOBAL_EXTENSIONS : List Str := [
  str ("_abc"), str ("_ast"), str ("_asyncio"), str ("_bisect"),
  str ("_blake2"), str ("_bz2"), str ("_codecs"), str ("_codecs_cn"),
  str ("_codecs_hk"), str ("_codecs_iso2022"), str ("_codecs_jp"),
  str ("_codecs_kr"), str ("_codecs_tw"), str ("_collections"),
  str ("_contextvars"), str ("_csv"), str ("_ctypes"), str ("_datetime"),
  str ("_decimal"), str ("_elementtree"), str ("_functools"),
  str ("_hashlib"), str ("_heapq"), str ("_imp"), str ("_io"),
  str ("_json"), str ("_locale"), str ("_lsprof"), str ("_lzma"),
  str ("_md5"), str ("_multibytecodec"), str ("_multiprocessing"),
  str ("_opcode"), str ("_operator"), str ("_pickle"), str ("_queue"),
  str ("_random"), str ("_sha1"), str ("_sha3"), str ("_signal"),
  str ("_socket"), str ("_sqlite3"), str ("_sre"), str ("_ssl"),
  str ("_stat"), str ("_statistics"), str ("_string"), str ("_struct"),
  str ("_symtable"), str ("_thread"), str ("_tkinter"),
  str ("_tracemalloc"), str ("_warnings"), str ("_weakref"),
  str ("_uuid"), str ("array"), str ("atexit"), str ("binascii"),
  str ("builtins"), str ("cmath"), str ("errno"), str ("faulthandler"),
  str ("gc"), str ("itertools"), str ("marshal"), str ("math"),
  str ("mmap"), str ("pyexpat"), str ("select"), str ("sys"),
  str ("time"), str ("unicodedata"), str ("xxsubtype"), str ("zlib")]

/-- `GLOBAL_EXTENSIONS_PYTHON_3_9` (validation.rs:690–698). -/
def GLOBAL_EXTENSIONS_PYTHON_3_9 : List Str := [
  str ("audioop"), str ("_peg_parser"), str ("_sha256"), str ("_sha512"),
  str ("_xxsubinterpreters"), str ("_zoneinfo"), str ("parser")]

/-- `GLOBAL_EXTENSIONS_PYTHON_3_10` (validation.rs:700–706). -/
def GLOBAL_EXTENSIONS_PYTHON_3_10 : List Str := [
  str ("audioop"), str ("_sha256"), str ("_sha512"),
  str ("_xxsubinterpreters"), str ("_zoneinfo")]

/-- `GLOBAL_EXTENSIONS_PYTHON_3_11` (validation.rs:708–716). -/
def GLOBAL_EXTENSIONS_PYTHON_3_11 : List Str := [
  str ("audioop"), str ("_sha256"), str ("_sha512"), str ("_tokenize"),
  str ("_typing"), str ("_xxsubinterpreters"), str ("_zoneinfo")]

/-- `GLOBAL_EXTENSIONS_PYTHON_3_12` (validation.rs:718–726). -/
def GLOBAL_EXTENSIONS_PYTHON_3_12 : List Str := [
  str ("audioop"), str ("_sha2"), str ("_tokenize"), str ("_typing"),
  str ("_xxinterpchannels"), str ("_xxsubinterpreters"), str ("_zoneinfo")]

/-- `GLOBAL_EXTENSIONS_PYTHON_3_13` (validation.rs:728–737). -/
def GLOBAL_EXTENSIONS_PYTHON_3_13 : List Str := [
  str ("_interpchannels"), str ("_interpqueues"), str ("_interpreters"),
  str ("_sha2"), str ("_sysconfig"), str ("_tokenize"), str ("_typing"),
  str ("_zoneinfo")]

/-- `GLOBAL_EXTENSIONS_PYTHON_3_14` (validation.rs:739–748). -/
def GLOBAL_EXTENSIONS_PYTHON_3_14 : List Str := [
  str ("_interpchannels"), str ("_interpqueues"), str ("_interpreters"),
  str ("_sha2"), str ("_sysconfig"), str ("_tokenize"), str ("_typing"),
  str ("_zoneinfo")]

/-- `GLOBAL_EXTENSIONS_MACOS` (validation.rs:750). -/
def GLOBAL_EXTENSIONS_MACOS : List Str := [str ("_scproxy")]

/-- `GLOBAL_EXTENSIONS_POSIX` (validation.rs:752–768). -/
def GLOBAL_EXTENSIONS_POSIX : List Str := [
  str ("_ctypes_test"), str ("_curses"), str ("_curses_panel"),
  str ("_dbm"), str ("_posixshmem"), str ("_posixsubprocess"),
  str ("_testinternalcapi"), str ("fcntl"), str ("grp"), str ("posix"),
  str ("pwd"), str ("readline"), str ("resource"), str ("syslog"),
  str ("termios")]

/-- `GLOBAL_EXTENSIONS_POSIX_PRE_3_13` (validation.rs:770). -/
def GLOBAL_EXTENSIONS_POSIX_PRE_3_13 : List Str := [str ("_crypt")]

/-- `GLOBAL_EXTENSIONS_LINUX_PRE_3_13` (validation.rs:772). -/
def GLOBAL_EXTENSIONS_LINUX_PRE_3_13 : List Str := [str ("spwd")]

/-- `GLOBAL_EXTENSIONS_WINDOWS` (validation.rs:774–781). -/
def GLOBAL_EXTENSIONS_WINDOWS : List Str := [
  str ("_overlapped"), str ("_winapi"), str ("msvcrt"), str ("nt"),
  str ("winreg"), str ("winsound")]

/-- `GLOBAL_EXTENSIONS_WINDOWS_PRE_3_13` (validation.rs:783). -/
def GLOBAL_EXTENSIONS_WINDOWS_PRE_3_13 : List Str := [str ("_msi")]

/-- `GLOBAL_EXTENSIONS_WINDOWS_NO_STATIC` (validation.rs:786). -/
def GLOBAL_EXTENSIONS_WINDOWS_NO_STATIC : List Str :=
  [str ("_testinternalcapi"), str ("_tkinter")]

/-- `SHARED_LIBRARY_EXTENSIONS` (validation.rs:789). -/
def SHARED_LIBRARY_EXTENSIONS : List Str := [str ("_crypt")]

/-- Model of `BTreeSet::remove`. -/
def setRemove [LinearOrder α] (x : α) (s : BSet α) : BSet α :=
  s.filter (fun p => p.1 ≠ x)

/-- Model of `BTreeSet::difference` (elements of `a` not in `b`, in `a`'s
stored order, which is sorted for well-formed sets). -/
def setDifference [LinearOrder α] (a b : BSet α) : List α :=
  (a.filter (fun p => ¬ setMemB p.1 b)).map Prod.fst

/-! ### `validate_pe` (validation.rs:1316–1355)

The `object` crate's PE parse is an oracle: `PEFileM` carries the decoded
import-descriptor library names and export symbol names. A failure
anywhere in the crate's lazy parsing (`import_table()?`,
`descriptors.next()?`, `String::from_utf8(..)?`, `exports()?`) surfaces,
like a failed `PeFile::parse`, as the entry's parse oracle yielding no
`PEFileM` (no error is pushed between those points, so this is
observationally the same split as the source's). -/

structure PEFileM where
  importLibs : List Str
  exports : List Str
deriving DecidableEq, Repr

/-- Model of `validate_pe`. -/
def validate_pe (ctx : ValidationContext) (path : Str) (pe : PEFileM) :
    RunResult ValidationContext :=
  if strContains path (str ("wininst-")) then .ok ctx
  else
    let ctx := pe.importLibs.foldl
      (fun c lib =>
        if PE_ALLOWED_LIBRARIES.contains lib then c
        else pushErr c (.peIllegalLibrary path lib)) ctx
    match fileName path with
    | none => .err .peNoFilename
    | some filename =>
      if startsWithStr (str ("python")) filename
          ∧ endsWithStr (str (".dll")) filename then
        .ok { ctx with libpython_exported_symbols := (pe.exports.foldl (fun s x => setInsert x s) ctx.libpython_exported_symbols) }
      else .ok ctx

/-! ### `validate_extension_modules` and `validate_json`
(validation.rs:1451–1637) -/

/-- `matches!(python_major_minor, "3.9" | "3.10" | "3.11" | "3.12")`. -/
def pmmPre313 (pmm : Str) : Bool :=
  decide (pmm = str ("3.9") ∨ pmm = str ("3.10")
    ∨ pmm = str ("3.11") ∨ pmm = str ("3.12"))

/-- The per-version extension list selected by the `match` on
`python_major_minor` (validation.rs:1472–1494); `none` models the
`panic!` arm. -/
def globalExtensionsForVersion (pmm : Str) : Option (List Str) :=
  if pmm = str ("3.9") then some GLOBAL_EXTENSIONS_PYTHON_3_9
  else if pmm = str ("3.10") then some GLOBAL_EXTENSIONS_PYTHON_3_10
  else if pmm = str ("3.11") then some GLOBAL_EXTENSIONS_PYTHON_3_11
  else if pmm = str ("3.12") then some GLOBAL_EXTENSIONS_PYTHON_3_12
  else if pmm = str ("3.13") then some GLOBAL_EXTENSIONS_PYTHON_3_13
  else if pmm = str ("3.14") then some GLOBAL_EXTENSIONS_PYTHON_3_14
  else none

/-- Model of `validate_extension_modules` (validation.rs:1451–1567). -/
def validate_extension_modules (python_major_minor target_triple : Str)
    (static_crt : Bool) (have_extensions : BSet Str) :
    RunResult (List VError) :=
  let is_ios := strContains target_triple (str ("-apple-ios"))
  let is_macos := strContains target_triple (str ("-apple-darwin"))
  let is_linux := strContains target_triple (str ("-unknown-linux-"))
  let is_windows := strContains target_triple (str ("-pc-windows-"))
  let is_linux_musl := strContains target_triple (str ("-unknown-linux-musl"))
  if is_ios then .ok []
  else
    match globalExtensionsForVersion python_major_minor with
    | none => .panicked
    | some versionExtensions =>
      let wanted := GLOBAL_EXTENSIONS.foldl (fun s x => setInsert x s) []
      let wanted := versionExtensions.foldl (fun s x => setInsert x s) wanted
      let wanted :=
        if is_macos then
          let wanted := GLOBAL_EXTENSIONS_POSIX.foldl
            (fun s x => setInsert x s) wanted
          let wanted :=
            if pmmPre313 python_major_minor then
              GLOBAL_EXTENSIONS_POSIX_PRE_3_13.foldl
                (fun s x => setInsert x s) wanted
            else wanted
          GLOBAL_EXTENSIONS_MACOS.foldl (fun s x => setInsert x s) wanted
        else wanted
      let wanted :=
        if is_windows then
          let wanted := GLOBAL_EXTENSIONS_WINDOWS.foldl
            (fun s x => setInsert x s) wanted
          let wanted :=
            if pmmPre313 python_major_minor then
              GLOBAL_EXTENSIONS_WINDOWS_PRE_3_13.foldl
                (fun s x => setInsert x s) wanted
            else wanted
          if static_crt then
            GLOBAL_EXTENSIONS_WINDOWS_NO_STATIC.foldl
              (fun s x => setRemove x s) wanted
          else wanted
        else wanted
      let wanted :=
        if is_linux then
          let wanted := GLOBAL_EXTENSIONS_POSIX.foldl
            (fun s x => setInsert x s) wanted
          let wanted :=
            if pmmPre313 python_major_minor then
              GLOBAL_EXTENSIONS_POSIX_PRE_3_13.foldl
                (fun s x => setInsert x s) wanted
            else wanted
          let wanted :=
            if pmmPre313 python_major_minor then
              GLOBAL_EXTENSIONS_LINUX_PRE_3_13.foldl
                (fun s x => setInsert x s) wanted
            else wanted
          if ¬ is_linux_musl ∧ pmmPre313 python_major_minor then
            setInsert (str ("ossaudiodev")) wanted
          else wanted
        else wanted
      let wanted :=
        if is_linux ∨ is_macos then
          [str ("_testbuffer"), str ("_testimportmultiple"),
            str ("_testmultiphase"), str ("_xxtestfuzz")].foldl
            (fun s x => setInsert x s) wanted
        else wanted
      let wanted :=
        if (is_linux ∨ is_macos)
            ∧ (python_major_minor = str ("3.13")
                ∨ python_major_minor = str ("3.14")) then
          [str ("_suggestions"), str ("_testexternalinspection")].foldl
            (fun s x => setInsert x s) wanted
        else wanted
      let wanted :=
        if (is_linux ∨ is_macos)
            ∧ (python_major_minor = str ("3.12")
                ∨ python_major_minor = str ("3.13")
                ∨ python_major_minor = str ("3.14")) then
          setInsert (str ("_testsinglephase")) wanted
        else wanted
      let wanted :=
        if (python_major_minor = str ("3.12")
              ∨ python_major_minor = str ("3.13")) ∧ is_windows then
          setInsert (str ("_wmi")) wanted
        else wanted
      let errors := (setDifference have_extensions wanted).map
        (fun x => VError.extraExtensionModule x)
      let errors := errors ++ (setDifference wanted have_extensions).map
        (fun x => VError.missingExtensionModule x)
      .ok errors

/-- Model of `validate_json` (validation.rs:1569–1637). -/
def validate_json (json : PythonJsonMainM) (triple : Str) (is_debug : Bool) :
    RunResult (List VError) :=
  let errors : List VError := []
  let errors :=
    if json.version ≠ str ("8") then errors ++ [.wrongJsonVersion json.version]
    else errors
  let errors :=
    if strContains triple (str ("-apple-")) then
      let errors :=
        if json.apple_sdk_canonical_name = none then
          errors ++ [.jsonNoSdkCanonicalName]
        else errors
      let errors :=
        if json.apple_sdk_deployment_target = none then
          errors ++ [.jsonNoSdkDeploymentTarget]
        else errors
      let errors :=
        if json.apple_sdk_platform = none then errors ++ [.jsonNoSdkPlatform]
        else errors
      if json.apple_sdk_version = none then errors ++ [.jsonNoSdkVersionField]
      else errors
    else errors
  match lookupKey triple PLATFORM_TAG_BY_TRIPLE with
  | none => .err (.platformTagMissing triple)
  | some wanted_platform_tag =>
    let errors :=
      if json.python_platform_tag ≠ wanted_platform_tag then
        errors ++ [.wrongPlatformTag wanted_platform_tag json.python_platform_tag]
      else errors
    (if is_debug then
        match lookupKey (str ("abiflags")) json.python_config_vars with
        | none => .panicked
        | some abiflags =>
          .ok (if ¬ abiflags.contains 'd' then [VError.abiflagsNoD] else [])
      else .ok []) >>= fun abiErrors =>
    let errors := errors ++ abiErrors
    let errors := json.build_info.extensions.foldl
      (fun errs p =>
        if GLOBALLY_BANNED_EXTENSIONS.contains p.1 then
          errs ++ [VError.bannedExtension p.1]
        else errs) errors
    let have_extensions := json.build_info.extensions.foldl
      (fun s p => setInsert p.1 s) []
    validate_extension_modules json.python_major_minor_version triple
        (json.crt_features.contains (str ("static"))) have_extensions
      >>= fun extErrors =>
    .ok (errors ++ extErrors)

/-! ### `validate_possible_object_file` (validation.rs:1358–1449)

`FileKind::parse` and the per-kind header parses of the `object` crate are
oracles: an entry's bytes carry their recognized kind and, for the kinds
that are further parsed, the parse outcome (`none` = the parse the source
unwraps with `?` failed). -/

inductive ObjParseM
  | notObject
  | elf (header : Option ElfFileM)
  | macho (header : Option (MachHeaderM × List LoadCommandM))
  | machoFat
  | pe (file : Option PEFileM)
  | otherKind
deriving DecidableEq, Repr

/-- Model of `validate_possible_object_file`. -/
def validate_possible_object_file (json : PythonJsonMainM)
    (python_major_minor triple path : Str) (parsed : ObjParseM) :
    RunResult ValidationContext :=
  let ctx := ValidationContext.default
  match parsed with
  | .notObject => .ok ctx
  | .elf none => .err .objectHeaderParse
  | .elf (some elf) => validate_elf ctx json triple python_major_minor path elf
  | .macho none => .err .objectHeaderParse
  | .macho (some hc) =>
    match json.apple_sdk_deployment_target with
    | none => .panicked
    | some advTarget =>
      match json.apple_sdk_version with
      | none => .panicked
      | some advSdk => validate_macho ctx triple advTarget advSdk path hc.1 hc.2
  | .machoFat =>
    if path ≠ str ("python/build/lib/libclang_rt.osx.a") then
      .ok (pushErr ctx (.unexpectedFatMachO path))
    else .ok ctx
  | .pe none => .err .objectHeaderParse
  | .pe (some pe) => validate_pe ctx path pe
  | .otherKind => .ok ctx

/-! ### `validate_distribution` (validation.rs:1639–2018)

The tar archive is an oracle list of entries: each entry carries the
accessor results the loop consults (path, symlink target, the object-parse
oracle for its bytes, the `goblin` archive-member oracle, whether its
bytes start with a build-environment shebang, and — consulted only for
`python/PYTHON.json` — the `parse_python_json` oracle). `IndexedSdks`
reads SDK metadata from disk, so `validate_context` is an oracle
function. Entry iteration and `read_to_end` are assumed to succeed. -/

structure TarEntryM where
  path : Str
  linkName : Option Str
  parsed : ObjParseM
  arMembers : Option (List (Str × Option ObjParseM))
  shebangBuildEnv : Bool
  jsonParsed : Option PythonJsonMainM

/-- Oracle for `IndexedSdks::validate_context` (src/macho.rs:362–437). -/
structure SdksM where
  run : ValidationContext → SemVer → Str → RunResult ValidationContext

/-- The mutable loop state of `validate_distribution`. -/
structure DistState where
  ctx : ValidationContext
  seen_paths : BSet Str
  seen_symlink_targets : BSet Str
  wanted_python_paths : BSet Str
  bin_python : Option Str
  bin_python3 : Option Str
deriving DecidableEq, Repr

/-- `members.sort()`: insertion sort of the archive members by name. -/
def arMemberInsert (x : Str × Option ObjParseM) :
    List (Str × Option ObjParseM) → List (Str × Option ObjParseM)
  | [] => [x]
  | y :: ys => if x.1 ≤ y.1 then x :: y :: ys else y :: arMemberInsert x ys

def sortArMembers (l : List (Str × Option ObjParseM)) :
    List (Str × Option ObjParseM) :=
  l.foldr arMemberInsert []

/-- One iteration of the `for entry in entries` loop
(validation.rs:1723–1816). -/
def distEntryStep (json : Option PythonJsonMainM)
    (python_major_minor triple : Str) (st : DistState) (entry : TarEntryM) :
    RunResult DistState :=
  let path := entry.path
  let st := { st with seen_paths := setInsert path st.seen_paths }
  let st :=
    match entry.linkName with
    | some link =>
      { st with seen_symlink_targets := (setInsert (symlinkTarget path link) st.seen_symlink_targets) }
    | none => st
  let removals := ((st.wanted_python_paths).map Prod.fst).filter
    (fun p => pathStartsWith path p)
  let st := { st with wanted_python_paths := (removals.foldl (fun s p => setRemove p s) st.wanted_python_paths) }
  match json with
  | none => .panicked
  | some j =>
    validate_possible_object_file j python_major_minor triple path entry.parsed
      >>= fun sub =>
    let st := { st with ctx := st.ctx.merge sub }
    (match entry.arMembers with
     | some members =>
       (sortArMembers members).foldlM
         (fun st m =>
           match m.2 with
           | none => .err (.archiveMemberExtract m.1 path)
           | some memberParsed =>
             match fileName path with
             | none => .panicked
             | some fn =>
               validate_possible_object_file j python_major_minor triple
                   (withFileName path (fn ++ ':' :: m.1)) memberParsed
                 >>= fun sub => .ok { st with ctx := st.ctx.merge sub })
         st
     | none => .ok st)
      >>= fun st =>
    let st :=
      if entry.shebangBuildEnv then
        { st with ctx := pushErr st.ctx (.shebangBuildEnv path) }
      else st
    let st :=
      if path = str ("python/PYTHON.json") then
        { st with ctx := pushErr st.ctx .pythonJsonSeenTwice }
      else st
    let st :=
      if path = str ("python/install/bin/python") then
        match entry.linkName with
        | some link => { st with bin_python := some link }
        | none => { st with ctx := pushErr st.ctx .binPythonNotSymlink }
      else st
    let st :=
      if path = str ("python/install/bin/python3") then
        match entry.linkName with
        | some link => { st with bin_python3 := some link }
        | none => { st with ctx := pushErr st.ctx .binPython3NotSymlink }
      else st
    .ok st

/-- Everything after the entry loop (validation.rs:1818–2017): the
`bin_python` checks, the symlink-target / wanted-path / required-dylib /
Windows-static-path / libpython-export sweeps, the extension-metadata
loop, the optional Apple SDK analysis and the referenced-object sweep,
returning `context.errors`. -/
def distFinish (json : Option PythonJsonMainM)
    (triple python_major_minor : Str) (is_static : Bool)
    (macos_sdks : Option SdksM) (st : DistState) : RunResult (List VError) :=
  let ctx := st.ctx
  let ctx :=
    match st.bin_python, st.bin_python3 with
    | none, none =>
      if ¬ strContains triple (str ("-windows-")) then
        pushErr ctx .binPythonEntriesMissing
      else ctx
    | none, some _ => pushErr ctx .binPythonMissing
    | some _, none => pushErr ctx .binPython3Missing
    | some python, some python3 =>
      if python ≠ python3 then pushErr ctx (.symlinkTargetsDiffer python python3)
      else ctx
  let ctx := st.seen_symlink_targets.foldl
    (fun c p =>
      if ¬ setMemB p.1 st.seen_paths then pushErr c (.symlinkTargetMissing p.1)
      else c) ctx
  let ctx := st.wanted_python_paths.foldl
    (fun c p => pushErr c (.pythonPathPrefixMissing p.1)) ctx
  let wanted_dylibs := (allowed_dylibs_for_triple triple).foldl
    (fun s d => if d.required then setInsert d.name s else s) []
  let ctx := (setDifference wanted_dylibs ctx.seen_dylibs).foldl
    (fun c lib => pushErr c (.requiredLibraryNotSeen lib)) ctx
  let ctx :=
    if strContains triple (str ("-windows-")) ∧ is_static then
      (setDifference WANTED_WINDOWS_STATIC_PATHS st.seen_paths).foldl
        (fun c p => pushErr c (.requiredPathNotSeen p)) ctx
    else ctx
  let ctx :=
    if ctx.libpython_exported_symbols = [] ∧ ¬ is_static then
      pushErr ctx .libpythonExportsNothing
    else ctx
  let ctx := PYTHON_EXPORTED_SYMBOLS.foldl
    (fun c symbol =>
      let exported := setMemB symbol c.libpython_exported_symbols
      let wanted := ! is_static
      if exported ≠ wanted then pushErr c (.libpythonSymbolWrong wanted symbol)
      else c) ctx
  match json with
  | none => .panicked
  | some j =>
    let ctx := j.build_info.extensions.foldl
      (fun c p => p.2.foldl
        (fun c ext =>
          let name := p.1
          let c :=
            match ext.shared_lib with
            | some shared =>
              if ¬ setMemB (pathJoin (str ("python")) shared) st.seen_paths then
                pushErr c (.extensionSharedLibMissing name shared)
              else c
            | none => c
          let want_shared :=
            if is_static then false
            else if ext.in_core then false
            else if strContains triple (str ("windows")) then true
            else SHARED_LIBRARY_EXTENSIONS.contains name
          let c :=
            if want_shared ∧ ext.shared_lib = none then
              pushErr c (.extensionNoSharedLibrary name)
            else if ¬ want_shared ∧ ext.shared_lib ≠ none then
              pushErr c (.extensionUnexpectedSharedLibrary name)
            else c
          if ext.init_fn = str ("NULL") then c
          else
            let exported := setMemB ext.init_fn c.libpython_exported_symbols
            let wanted :=
              if is_static then false
              else if name = str ("_warnings") then
                if strContains triple (str ("-windows-")) then
                  pmmPre313 python_major_minor
                else true
              else if strContains triple (str ("-windows-")) then false
              else if ext.shared_lib ≠ none then false
              else true
            if exported ≠ wanted then
              pushErr c (.extensionInitFnWrong wanted ext.init_fn name)
            else c)
        c) ctx
    (if strContains triple (str ("-apple-darwin")) then
        match macos_sdks with
        | some sdks =>
          match j.apple_sdk_deployment_target with
          | some value =>
            match semverParse (value ++ str (".0")) with
            | none => .err (.semverParseFailed value)
            | some target_minimum_sdk => sdks.run ctx target_minimum_sdk triple
          | none => .ok (pushErr ctx .missingSdkAdvertisement)
        | none => .ok ctx
      else .ok ctx)
      >>= fun ctx =>
    let ctx := (j.all_object_paths).foldl
      (fun c p =>
        let wanted_path := pathJoin (str ("python")) p.1
        if ¬ setMemB wanted_path st.seen_paths then
          pushErr c (.objectPathNotInArchive wanted_path)
        else c) ctx
    .ok ctx.errors

/-- The triple search over `RECOGNIZED_TRIPLES` (validation.rs:1653–1665). -/
def tripleFromDistPath (dist_path : Str) : Option Str :=
  RECOGNIZED_TRIPLES.find?
    (fun t => strContains dist_path ('-' :: t ++ str ("-")))

/-- The `python_major_minor` determination from the distribution filename
(validation.rs:1667–1681). -/
def pythonMajorMinorFromFilename (dist_filename : Str) : Option Str :=
  if startsWithStr (str ("cpython-3.9.")) dist_filename then some (str ("3.9"))
  else if startsWithStr (str ("cpython-3.10.")) dist_filename then some (str ("3.10"))
  else if startsWithStr (str ("cpython-3.11.")) dist_filename then some (str ("3.11"))
  else if startsWithStr (str ("cpython-3.12.")) dist_filename then some (str ("3.12"))
  else if startsWithStr (str ("cpython-3.13.")) dist_filename then some (str ("3.13"))
  else if startsWithStr (str ("cpython-3.14.")) dist_filename then some (str ("3.14"))
  else none

/-- Model of `validate_distribution`. -/
def validate_distribution (dist_path : Str) (macos_sdks : Option SdksM)
    (entries : List TarEntryM) : RunResult (List VError) :=
  match fileName dist_path with
  | none => .panicked
  | some dist_filename =>
  match tripleFromDistPath dist_path with
  | none => .err (.tripleFromFilename dist_path)
  | some triple =>
  match pythonMajorMinorFromFilename dist_filename with
  | none => .err .pythonVersionFromFilename
  | some python_major_minor =>
  let is_debug := strContains dist_filename (str ("-debug-"))
  let is_static := strContains triple (str ("unknown-linux-musl"))
  match entries with
  | [] => .panicked
  | first :: rest =>
    (if first.path = str ("python/PYTHON.json") then
        match first.jsonParsed with
        | none => .err .jsonParseFailed
        | some j =>
          validate_json j triple is_debug >>= fun jsonErrors =>
          .ok (some j,
            ({ ctx := ({ ValidationContext.default with errors := jsonErrors }),
               seen_paths := setInsert first.path [],
               seen_symlink_targets := [],
               wanted_python_paths := (j.python_paths.foldl (fun s p => setInsert (str ("python/") ++ p.2) s) []),
               bin_python := none, bin_python3 := none } : DistState))
      else
        .ok ((none : Option PythonJsonMainM),
          ({ ctx := pushErr ValidationContext.default (.firstEntryNotPythonJson first.path),
             seen_paths := [], seen_symlink_targets := [],
             wanted_python_paths := [],
             bin_python := none, bin_python3 := none } : DistState)))
      >>= fun init =>
    rest.foldlM (distEntryStep init.1 python_major_minor triple) init.2
      >>= fun st =>
    distFinish init.1 triple python_major_minor is_static macos_sdks st

/-- A well-formed `PYTHON.json` for the `x86_64-apple-ios` triple (no
extensions, no referenced paths), used by the C3 theorems. -/
def iosJson : PythonJsonMainM :=
  { apple_sdk_canonical_name := some (str ("iphoneos17.0")),
    apple_sdk_deployment_target := some (str ("12.3")),
    apple_sdk_platform := some (str ("iphoneos")),
    apple_sdk_version := some (str ("17.0")),
    build_info := ⟨⟨[], []⟩, []⟩,
    crt_features := [],
    python_config_vars := [],
    python_major_minor_version := str ("3.9"),
    python_paths := [],
    python_platform_tag := str ("iOS-x86_64"),
    version := str ("8") }

/-- The loop state right after a clean `python/PYTHON.json` first entry
with `iosJson` contents. -/
def iosState : DistState :=
  { ctx := ValidationContext.default,
    seen_paths := setInsert (str ("python/PYTHON.json")) [],
    seen_symlink_targets := [],
    wanted_python_paths := [],
    bin_python := none, bin_python3 := none }

/-- An archive entry recognized as ELF whose header fails to parse. -/
def elfParseFailEntry : TarEntryM :=
  ⟨str ("python/install/lib/libssl.so"), none, .elf none, none, false, none⟩

/-- A harmless entry placed after the failing one. -/
def afterFailEntry : TarEntryM :=
  ⟨str ("python/install/foo"), none, .notObject, none, false, none⟩

/-! ### Theorems -/

theorem natToDigitsF_fuel_irrel (n : Nat) : ∀ f g : Nat, n < f → n < g →
    natToDigitsF f n = natToDigitsF g n := by
  induction n using Nat.strong_induction_on with
  | _ n ih =>
    intro f g hf hg
    match f, g with
    | f' + 1, g' + 1 =>
      simp only [natToDigitsF]
      split
      · rfl
      · rw [ih (n / 10) (by omega) f' g' (by omega) (by omega)]

/-- Unfolding equation for `natToDigits`. -/
theorem natToDigits_eq (n : Nat) :
    natToDigits n = if n < 10 then [digitChar n]
      else natToDigits (n / 10) ++ [digitChar (n % 10)] := by
  show natToDigitsF (n + 1) n = _
  rw [natToDigitsF]
  unfold natToDigits
  split
  · rfl
  · rw [natToDigitsF_fuel_irrel (n / 10) n (n / 10 + 1) (by omega) (by omega)]

/-! ### Numeral lemmas -/

theorem digitChar_isDigit {d : Nat} (h : d < 10) : (digitChar d).isDigit = true := by
  interval_cases d <;> decide

theorem digitChar_toNat {d : Nat} (h : d < 10) : (digitChar d).toNat = 48 + d := by
  interval_cases d <;> decide

theorem digitChar_ne_dot {d : Nat} (h : d < 10) : digitChar d ≠ '.' := by
  interval_cases d <;> decide

theorem digitChar_ne_plus {d : Nat} (h : d < 10) : digitChar d ≠ '+' := by
  interval_cases d <;> decide

theorem natToDigits_ne_nil (n : Nat) : natToDigits n ≠ [] := by
  rw [natToDigits_eq]
  split
  · simp
  · simp

theorem natToDigits_all_digits (n : Nat) : ∀ c ∈ natToDigits n, c.isDigit = true := by
  induction n using Nat.strong_induction_on with
  | _ n ih =>
    rw [natToDigits_eq]
    split
    · intro c hc
      simp only [List.mem_singleton] at hc
      subst hc
      exact digitChar_isDigit (by omega)
    · intro c hc
      rw [List.mem_append] at hc
      rcases hc with hc | hc
      · exact ih (n / 10) (Nat.div_lt_self (by omega) (by omega)) c hc
      · simp only [List.mem_singleton] at hc
        subst hc
        exact digitChar_isDigit (Nat.mod_lt _ (by omega))

theorem digitsToNat_append_last (s : Str) (c : Char) :
    digitsToNat (s ++ [c]) = 10 * digitsToNat s + (c.toNat - 48) := by
  unfold digitsToNat
  rw [List.foldl_append]
  simp [Nat.mul_comm]

theorem digitsToNat_natToDigits (n : Nat) : digitsToNat (natToDigits n) = n := by
  induction n using Nat.strong_induction_on with
  | _ n ih =>
    rw [natToDigits_eq]
    split
    · rename_i h
      simp [digitsToNat, digitChar_toNat h]
    · rename_i h
      rw [digitsToNat_append_last, ih (n / 10) (Nat.div_lt_self (by omega) (by omega)),
        digitChar_toNat (Nat.mod_lt _ (by omega))]
      omega

theorem natToDigits_injective {m n : Nat} (h : natToDigits m = natToDigits n) : m = n := by
  have := digitsToNat_natToDigits m
  rw [h, digitsToNat_natToDigits] at this
  omega

theorem stripPlus_of_digits {s : Str} (h : ∀ c ∈ s, c.isDigit = true) :
    stripPlus s = s := by
  cases s with
  | nil => rfl
  | cons c t =>
    have hc : c ≠ '+' := by
      intro h'
      have hdig := h c (List.mem_cons_self _ _)
      rw [h'] at hdig
      exact absurd hdig (by decide)
    simp [stripPlus, hc]

theorem parseU32_natToDigits {n : Nat} (h : n < 4294967296) :
    parseU32 (natToDigits n) = some n := by
  unfold parseU32
  rw [stripPlus_of_digits (natToDigits_all_digits n)]
  have hne : (natToDigits n).isEmpty = false := by
    cases heq : natToDigits n with
    | nil => exact absurd heq (natToDigits_ne_nil n)
    | cons c t => rfl
  rw [hne]
  simp only [Bool.false_eq_true, if_false]
  have hall : (natToDigits n).all Char.isDigit = true := by
    rw [List.all_eq_true]
    exact natToDigits_all_digits n
  rw [hall]
  simp [digitsToNat_natToDigits, h]

theorem splitOnChar_ne_nil (sep : Char) (s : Str) : splitOnChar sep s ≠ [] := by
  cases s with
  | nil => simp [splitOnChar]
  | cons c rest =>
    unfold splitOnChar
    split
    · simp
    · split <;> simp

theorem splitOnChar_no_sep {sep : Char} {s : Str} (h : ∀ c ∈ s, c ≠ sep) :
    splitOnChar sep s = [s] := by
  induction s with
  | nil => rfl
  | cons c rest ih =>
    have hc : c ≠ sep := h c (List.mem_cons_self _ _)
    simp only [splitOnChar]
    rw [if_neg hc, ih (fun x hx => h x (List.mem_cons_of_mem _ hx))]

theorem splitOnChar_append_sep {sep : Char} {xs : Str} (ys : Str)
    (h : ∀ c ∈ xs, c ≠ sep) :
    splitOnChar sep (xs ++ sep :: ys) = xs :: splitOnChar sep ys := by
  induction xs with
  | nil =>
    simp [splitOnChar]
  | cons c rest ih =>
    have hc : c ≠ sep := h c (List.mem_cons_self _ _)
    simp only [List.cons_append, splitOnChar]
    rw [if_neg hc]
    simp only [List.append_eq]
    rw [ih (fun x hx => h x (List.mem_cons_of_mem _ hx))]

theorem mask255_eq_mod (x : Nat) : x &&& 255 = x % 256 := by
  have h := Nat.and_pow_two_sub_one_eq_mod x 8
  norm_num at h
  exact h

/-- The packed-value expression equals positional arithmetic. -/
theorem packed_value_eq (major minor subminor : Nat) :
    ((major <<< 16) % 4294967296) ||| ((minor &&& 255) <<< 8) ||| (subminor &&& 255)
      = (major % 65536) * 65536 + (minor % 256) * 256 + subminor % 256 := by
  rw [Nat.shiftLeft_eq, Nat.shiftLeft_eq, mask255_eq_mod, mask255_eq_mod]
  have h1 : major * 2 ^ 16 % 4294967296 = 65536 * (major % 65536) := by
    have : (4294967296 : Nat) = 65536 * 65536 := by norm_num
    rw [this]
    have := Nat.mul_mod_mul_right 65536 major 65536
    norm_num at this ⊢
    omega
  rw [h1]
  have h2 : 65536 * (major % 65536) ||| minor % 256 * 2 ^ 8
      = 65536 * (major % 65536) + minor % 256 * 2 ^ 8 := by
    have hb : minor % 256 * 2 ^ 8 < 2 ^ 16 := by
      have : minor % 256 < 256 := Nat.mod_lt _ (by omega)
      norm_num
      omega
    have := Nat.mul_add_lt_is_or hb (major % 65536)
    norm_num at this ⊢
    omega
  rw [h2]
  have h3 : 65536 * (major % 65536) + minor % 256 * 2 ^ 8 ||| subminor % 256
      = 65536 * (major % 65536) + minor % 256 * 2 ^ 8 + subminor % 256 := by
    have hc : subminor % 256 < 2 ^ 8 := by
      have : subminor % 256 < 256 := Nat.mod_lt _ (by omega)
      norm_num
      omega
    have hrw : 65536 * (major % 65536) + minor % 256 * 2 ^ 8
        = 2 ^ 8 * (256 * (major % 65536) + minor % 256) := by ring
    rw [hrw]
    have := Nat.mul_add_lt_is_or hc (256 * (major % 65536) + minor % 256)
    omega
  rw [h3]
  ring

theorem shiftRight16_eq (x : Nat) : x >>> 16 = x / 65536 := by
  rw [Nat.shiftRight_eq_div_pow]

theorem shiftRight8_eq (x : Nat) : x >>> 8 = x / 256 := by
  rw [Nat.shiftRight_eq_div_pow]

/-- Extraction of the three fields of a packed value. -/
theorem packed_fields (a b c : Nat) (hb : b < 256) (hc : c < 256) :
    (a * 65536 + b * 256 + c) >>> 16 = a
      ∧ ((a * 65536 + b * 256 + c) >>> 8) &&& 255 = b
      ∧ (a * 65536 + b * 256 + c) &&& 255 = c := by
  refine ⟨?_, ?_, ?_⟩
  · rw [shiftRight16_eq]; omega
  · rw [shiftRight8_eq, mask255_eq_mod]; omega
  · rw [mask255_eq_mod]; omega

theorem verStr_split (a b c : Nat) :
    splitOnChar '.' (verStr a b c) = [natToDigits a, natToDigits b, natToDigits c] := by
  unfold verStr
  rw [splitOnChar_append_sep _
    (fun x hx h => by
      have := natToDigits_all_digits a x hx
      subst h
      simp [Char.isDigit] at this)]
  rw [splitOnChar_append_sep _
    (fun x hx h => by
      have := natToDigits_all_digits b x hx
      subst h
      simp [Char.isDigit] at this)]
  rw [splitOnChar_no_sep
    (fun x hx h => by
      have := natToDigits_all_digits c x hx
      subst h
      simp [Char.isDigit] at this)]

theorem verStr_injective {x y z a b c : Nat} (h : verStr x y z = verStr a b c) :
    x = a ∧ y = b ∧ z = c := by
  have hs := verStr_split x y z
  rw [h, verStr_split] at hs
  injection hs with h1 hs
  injection hs with h2 hs
  injection hs with h3 _
  exact ⟨(natToDigits_injective h1).symm, (natToDigits_injective h2).symm,
    (natToDigits_injective h3).symm⟩

theorem tryFrom_verStr {a b c : Nat} (ha : a < 4294967296) (hb : b < 4294967296)
    (hc : c < 4294967296) :
    MachOPackedVersion.tryFrom (verStr a b c)
      = some ⟨(a % 65536) * 65536 + (b % 256) * 256 + c % 256⟩ := by
  unfold MachOPackedVersion.tryFrom
  rw [verStr_split]
  simp only [parseU32_natToDigits ha, parseU32_natToDigits hb, parseU32_natToDigits hc]
  rw [packed_value_eq]

theorem display_packed (a b c : Nat) (hb : b < 256) (hc : c < 256) :
    MachOPackedVersion.display ⟨a * 65536 + b * 256 + c⟩ = verStr a b c := by
  unfold MachOPackedVersion.display verStr
  obtain ⟨h1, h2, h3⟩ := packed_fields a b c hb hc
  rw [h1, h2, h3]

/-- C5 counterexample: the dotted string `03.9.1` has components
`(3, 9, 1)` within the required bounds and parses successfully, but
formatting the parsed value yields the canonical `3.9.1`, not the
original string, so the round-trip fails as stated. -/
theorem C5_counterexample_leading_zero :
    (MachOPackedVersion.tryFrom (str ("03.9.1"))).map MachOPackedVersion.display
        = some (str ("3.9.1"))
      ∧ str ("3.9.1") ≠ str ("03.9.1") := by
  constructor
  · rfl
  · decide

/-- C5 (amended): for every 3-component dotted version string whose
components are written as canonical decimal numerals (no leading zeros or
sign) and satisfy `major ≤ 65535`, `minor ≤ 255`, `subminor ≤ 255`,
parsing via `MachOPackedVersion::try_from` and then formatting via
`Display` yields exactly the original string. -/
theorem C5_roundtrip_canonical (a b c : Nat)
    (ha : a ≤ 65535) (hb : b ≤ 255) (hc : c ≤ 255) :
    ∃ v : MachOPackedVersion,
      MachOPackedVersion.tryFrom (verStr a b c) = some v
        ∧ MachOPackedVersion.display v = verStr a b c := by
  refine ⟨⟨a * 65536 + b * 256 + c⟩, ?_, ?_⟩
  · rw [tryFrom_verStr (by omega) (by omega) (by omega)]
    have h1 : a % 65536 = a := Nat.mod_eq_of_lt (by omega)
    have h2 : b % 256 = b := Nat.mod_eq_of_lt (by omega)
    have h3 : c % 256 = c := Nat.mod_eq_of_lt (by omega)
    rw [h1, h2, h3]
  · exact display_packed a b c (by omega) (by omega)

/-- C5 witness: the round-trip theorem applied at the concrete version
`3.9.1` from the specification. -/
theorem C5_roundtrip_canonical_witness :
    (3 ≤ 65535 ∧ 9 ≤ 255 ∧ 1 ≤ 255)
      ∧ ∃ v : MachOPackedVersion,
          MachOPackedVersion.tryFrom (verStr 3 9 1) = some v
            ∧ MachOPackedVersion.display v = verStr 3 9 1 :=
  ⟨⟨by decide, by decide, by decide⟩,
    C5_roundtrip_canonical 3 9 1 (by decide) (by decide) (by decide)⟩

/-- C9: `MachOPackedVersion` parsing accepts any 3-component dotted string
of (32-bit) unsigned integers, silently masking minor and subminor to their
low 8 bits: parsing `a.b.c` succeeds and agrees with parsing
`a.(b mod 256).(c mod 256)`; in particular `1.256.0` parses equal to
`1.0.0`; and whenever `b ≥ 256` or `c ≥ 256` the parse/format round-trip
fails. -/
theorem C9_minor_subminor_masked :
    (∀ a b c : Nat, a < 4294967296 → b < 4294967296 → c < 4294967296 →
      MachOPackedVersion.tryFrom (verStr a b c)
          = some ⟨(a % 65536) * 65536 + (b % 256) * 256 + c % 256⟩
        ∧ MachOPackedVersion.tryFrom (verStr a b c)
          = MachOPackedVersion.tryFrom (verStr a (b % 256) (c % 256)))
    ∧ MachOPackedVersion.tryFrom (str ("1.256.0"))
        = MachOPackedVersion.tryFrom (str ("1.0.0"))
    ∧ (∀ a b c : Nat, a < 4294967296 → b < 4294967296 → c < 4294967296 →
        256 ≤ b ∨ 256 ≤ c →
        (MachOPackedVersion.tryFrom (verStr a b c)).map MachOPackedVersion.display
          ≠ some (verStr a b c)) := by
  refine ⟨?_, by rfl, ?_⟩
  · intro a b c ha hb hc
    constructor
    · exact tryFrom_verStr ha hb hc
    · rw [tryFrom_verStr ha hb hc,
        tryFrom_verStr ha (by omega : b % 256 < 4294967296) (by omega : c % 256 < 4294967296)]
      rw [Nat.mod_mod_of_dvd b (by norm_num), Nat.mod_mod_of_dvd c (by norm_num)]
  · intro a b c ha hb hc hmask heq
    rw [tryFrom_verStr ha hb hc] at heq
    simp only [Option.map_some'] at heq
    rw [display_packed (a % 65536) (b % 256) (c % 256)
      (Nat.mod_lt _ (by omega)) (Nat.mod_lt _ (by omega))] at heq
    injection heq with heq
    obtain ⟨h1, h2, h3⟩ := verStr_injective heq
    rcases hmask with hm | hm
    · have := Nat.mod_lt b (y := 256) (by omega)
      omega
    · have := Nat.mod_lt c (y := 256) (by omega)
      omega

section SortedMapTheorems

variable {α : Type} {β : Type} [LinearOrder α]

theorem keys_of_mem_mapModify {k : α} {d : β} {g : β → β} {l : List (α × β)}
    {x : α × β} (h : x ∈ mapModify k d g l) : x.1 = k ∨ ∃ v, (x.1, v) ∈ l := by
  induction l with
  | nil =>
    simp only [mapModify, List.mem_singleton] at h
    subst h
    exact Or.inl rfl
  | cons p rest ih =>
    obtain ⟨k', v⟩ := p
    simp only [mapModify] at h
    split at h
    · rcases List.mem_cons.1 h with h | h
      · subst h; exact Or.inl rfl
      · exact Or.inr ⟨x.2, by simpa using h⟩
    · split at h
      · rcases List.mem_cons.1 h with h | h
        · subst h
          exact Or.inr ⟨v, List.mem_cons_self _ _⟩
        · rcases ih h with h | ⟨w, hw⟩
          · exact Or.inl h
          · exact Or.inr ⟨w, List.mem_cons_of_mem _ hw⟩
      · rename_i h1 h2
        have hk : k = k' := le_antisymm (not_lt.1 h2) (not_lt.1 h1)
        rcases List.mem_cons.1 h with h | h
        · subst h
          exact Or.inl hk.symm
        · exact Or.inr ⟨x.2, List.mem_cons_of_mem _ (by simpa using h)⟩

theorem keysSorted_mapModify {k : α} {d : β} {g : β → β} {l : List (α × β)}
    (hl : keysSorted l) : keysSorted (mapModify k d g l) := by
  induction l with
  | nil => simp [mapModify, keysSorted]
  | cons p rest ih =>
    obtain ⟨k', v⟩ := p
    rw [keysSorted, List.pairwise_cons] at hl
    obtain ⟨hhead, htail⟩ := hl
    simp only [mapModify]
    split
    · rename_i hlt
      rw [keysSorted, List.pairwise_cons]
      refine ⟨?_, List.Pairwise.cons hhead htail⟩
      intro q hq
      rcases List.mem_cons.1 hq with h | h
      · subst h; exact hlt
      · exact lt_trans hlt (hhead q h)
    · split
      · rename_i hgt
        rw [keysSorted, List.pairwise_cons]
        refine ⟨?_, ih htail⟩
        intro q hq
        rcases keys_of_mem_mapModify hq with h | ⟨w, hw⟩
        · rw [h]; assumption
        · exact hhead (q.1, w) hw
      · rw [keysSorted, List.pairwise_cons]
        exact ⟨fun q hq => hhead q hq, htail⟩

theorem valuesP_mapModify {P : β → Prop} {k : α} {d : β} {g : β → β}
    {l : List (α × β)} (hg : ∀ x, P x → P (g x)) (hgd : P (g d))
    (hl : valuesP P l) : valuesP P (mapModify k d g l) := by
  induction l with
  | nil =>
    intro p hp
    simp only [mapModify, List.mem_singleton] at hp
    subst hp
    exact hgd
  | cons q rest ih =>
    obtain ⟨k', v⟩ := q
    have hv : P v := hl (k', v) (List.mem_cons_self _ _)
    have htail : valuesP P rest := fun p hp => hl p (List.mem_cons_of_mem _ hp)
    intro p hp
    simp only [mapModify] at hp
    split at hp
    · rcases List.mem_cons.1 hp with h | h
      · subst h; exact hgd
      · exact hl p h
    · split at hp
      · rcases List.mem_cons.1 hp with h | h
        · subst h; exact hv
        · exact ih htail p h
      · rcases List.mem_cons.1 hp with h | h
        · subst h; exact hg v hv
        · exact htail p h

theorem lookupKey_mapModify_ne {k k' : α} {d : β} {g : β → β} {l : List (α × β)}
    (hne : k' ≠ k) : lookupKey k' (mapModify k d g l) = lookupKey k' l := by
  induction l with
  | nil => simp [mapModify, lookupKey, hne]
  | cons p rest ih =>
    obtain ⟨k0, v⟩ := p
    simp only [mapModify]
    split
    · simp only [lookupKey, if_neg hne]
    · split
      · simp only [lookupKey]
        split
        · rfl
        · exact ih
      · rename_i h1 h2
        have hk : k = k0 := le_antisymm (not_lt.1 h2) (not_lt.1 h1)
        subst hk
        simp only [lookupKey, if_neg hne]

theorem lookupKey_none_iff {k : α} {l : List (α × β)} :
    lookupKey k l = none ↔ ∀ p ∈ l, k ≠ p.1 := by
  induction l with
  | nil => simp [lookupKey]
  | cons p rest ih =>
    obtain ⟨k', v⟩ := p
    simp only [lookupKey]
    split
    · rename_i h
      subst h
      simp
    · rename_i h
      rw [ih]
      constructor
      · intro hall q hq
        rcases List.mem_cons.1 hq with rfl | hq
        · exact h
        · exact hall q hq
      · intro hall q hq
        exact hall q (List.mem_cons_of_mem _ hq)

theorem lookupKey_mapModify_self {k : α} {d : β} {g : β → β} {l : List (α × β)}
    (hl : keysSorted l) :
    lookupKey k (mapModify k d g l) = some (g ((lookupKey k l).getD d)) := by
  induction l with
  | nil => simp [mapModify, lookupKey]
  | cons p rest ih =>
    obtain ⟨k', v⟩ := p
    rw [keysSorted, List.pairwise_cons] at hl
    obtain ⟨hhead, htail⟩ := hl
    simp only [mapModify]
    split
    · rename_i hlt
      have hne : k ≠ k' := ne_of_lt hlt
      have hnone : lookupKey k ((k', v) :: rest) = none := by
        rw [lookupKey_none_iff]
        intro q hq
        rcases List.mem_cons.1 hq with rfl | hq
        · exact hne
        · exact ne_of_lt (lt_trans hlt (hhead q hq))
      rw [hnone]
      simp [lookupKey]
    · split
      · rename_i hgt
        have hne : k ≠ k' := fun h => absurd (h ▸ hgt) (lt_irrefl _)
        simp only [lookupKey, if_neg hne]
        exact ih htail
      · rename_i h1 h2
        have hk : k = k' := le_antisymm (not_lt.1 h2) (not_lt.1 h1)
        subst hk
        simp [lookupKey]

theorem bmerge_cons (comb : β → β → β) (d : β) (a : List (α × β)) (p : α × β)
    (b : List (α × β)) :
    bmerge comb d a (p :: b) = bmerge comb d (mapModify p.1 d (fun v => comb v p.2) a) b :=
  rfl

theorem keysSorted_bmerge {comb : β → β → β} {d : β} {a b : List (α × β)}
    (ha : keysSorted a) : keysSorted (bmerge comb d a b) := by
  induction b generalizing a with
  | nil => exact ha
  | cons p rest ih => exact ih (keysSorted_mapModify ha)

theorem valuesP_bmerge {P : β → Prop} {comb : β → β → β} {d : β}
    {a b : List (α × β)}
    (hcl : ∀ x y, P x → P y → P (comb x y)) (hd : ∀ y, P y → comb d y = y)
    (hva : valuesP P a) (hvb : valuesP P b) :
    valuesP P (bmerge comb d a b) := by
  induction b generalizing a with
  | nil => exact hva
  | cons p rest ih =>
    refine ih ?_ (fun q hq => hvb q (List.mem_cons_of_mem _ hq))
    have hp : P p.2 := hvb p (List.mem_cons_self _ _)
    exact valuesP_mapModify (fun x hx => hcl x p.2 hx hp)
      (by rw [hd p.2 hp]; exact hp) hva

theorem lookupKey_bmerge {comb : β → β → β} {d : β} {a b : List (α × β)} {k : α}
    (ha : keysSorted a) (hb : keysSorted b) :
    lookupKey k (bmerge comb d a b)
      = combineOpt comb d (lookupKey k a) (lookupKey k b) := by
  induction b generalizing a with
  | nil =>
    cases h : lookupKey k a <;> simp [bmerge, combineOpt, lookupKey, h]
  | cons p rest ih =>
    obtain ⟨k0, v0⟩ := p
    rw [keysSorted, List.pairwise_cons] at hb
    obtain ⟨hbhead, hbtail⟩ := hb
    rw [bmerge_cons]
    rw [ih (keysSorted_mapModify ha) hbtail]
    by_cases hk : k = k0
    · subst hk
      have hrest : lookupKey k rest = none := by
        rw [lookupKey_none_iff]
        intro q hq
        exact ne_of_lt (hbhead q hq)
      rw [hrest, lookupKey_mapModify_self ha]
      simp only [lookupKey, if_pos rfl]
      cases h : lookupKey k a <;> simp [combineOpt, h]
    · rw [lookupKey_mapModify_ne hk]
      simp only [lookupKey, if_neg hk]

theorem sortedMap_ext {a b : List (α × β)} (ha : keysSorted a) (hb : keysSorted b)
    (h : ∀ k, lookupKey k a = lookupKey k b) : a = b := by
  induction a generalizing b with
  | nil =>
    cases b with
    | nil => rfl
    | cons q rest =>
      exfalso
      have := h q.1
      simp [lookupKey] at this
  | cons p arest ih =>
    cases b with
    | nil =>
      exfalso
      have := h p.1
      simp [lookupKey] at this
    | cons q brest =>
      obtain ⟨k1, v1⟩ := p
      obtain ⟨k2, v2⟩ := q
      rw [keysSorted, List.pairwise_cons] at ha hb
      obtain ⟨hahead, hatail⟩ := ha
      obtain ⟨hbhead, hbtail⟩ := hb
      rcases lt_trichotomy k1 k2 with hlt | heq | hgt
      · exfalso
        have h1 := h k1
        simp only [lookupKey, if_pos rfl] at h1
        rw [if_neg (ne_of_lt hlt)] at h1
        have : lookupKey k1 brest = none := by
          rw [lookupKey_none_iff]
          intro r hr
          exact ne_of_lt (lt_trans hlt (hbhead r hr))
        rw [this] at h1
        cases h1
      · subst heq
        have h1 := h k1
        simp only [lookupKey, if_pos rfl] at h1
        injection h1 with hv
        subst hv
        congr 1
        refine ih hatail hbtail (fun k => ?_)
        by_cases hk : k = k1
        · subst hk
          have hna : lookupKey k arest = none := by
            rw [lookupKey_none_iff]
            intro r hr
            exact ne_of_lt (hahead r hr)
          have hnb : lookupKey k brest = none := by
            rw [lookupKey_none_iff]
            intro r hr
            exact ne_of_lt (hbhead r hr)
          rw [hna, hnb]
        · have h2 := h k
          simp only [lookupKey, if_neg hk] at h2
          exact h2
      · exfalso
        have h1 := h k2
        simp only [lookupKey, if_pos rfl] at h1
        rw [if_neg (ne_of_lt hgt)] at h1
        have : lookupKey k2 arest = none := by
          rw [lookupKey_none_iff]
          intro r hr
          exact ne_of_lt (lt_trans hgt (hahead r hr))
        rw [this] at h1
        cases h1

theorem valuesP_lookupKey {P : β → Prop} {l : List (α × β)} {k : α} {v : β}
    (hl : valuesP P l) (h : lookupKey k l = some v) : P v := by
  induction l with
  | nil => cases h
  | cons p rest ih =>
    simp only [lookupKey] at h
    split at h
    · injection h with h
      subst h
      exact hl p (List.mem_cons_self _ _)
    · exact ih (fun q hq => hl q (List.mem_cons_of_mem _ hq)) h

theorem bmerge_nil_left {P : β → Prop} {comb : β → β → β} {d : β}
    {b : List (α × β)} (hd : ∀ y, P y → comb d y = y)
    (hb : keysSorted b) (hvb : valuesP P b) :
    bmerge comb d ([] : List (α × β)) b = b := by
  refine sortedMap_ext (keysSorted_bmerge (by simp [keysSorted])) hb (fun k => ?_)
  rw [lookupKey_bmerge (by simp [keysSorted]) hb]
  cases h : lookupKey k b with
  | none => simp [lookupKey, combineOpt]
  | some y =>
    simp only [lookupKey, combineOpt]
    rw [hd y (valuesP_lookupKey hvb h)]

theorem bmerge_comm {P : β → Prop} {comb : β → β → β} {d : β}
    {a b : List (α × β)}
    (hcm : ∀ x y, P x → P y → comb x y = comb y x)
    (hd : ∀ y, P y → comb d y = y)
    (ha : keysSorted a) (hb : keysSorted b)
    (hva : valuesP P a) (hvb : valuesP P b) :
    bmerge comb d a b = bmerge comb d b a := by
  refine sortedMap_ext (keysSorted_bmerge ha) (keysSorted_bmerge hb) (fun k => ?_)
  rw [lookupKey_bmerge ha hb, lookupKey_bmerge hb ha]
  cases h1 : lookupKey k a with
  | none =>
    cases h2 : lookupKey k b with
    | none => rfl
    | some y => simp [combineOpt, hd y (valuesP_lookupKey hvb h2)]
  | some x =>
    cases h2 : lookupKey k b with
    | none => simp [combineOpt, hd x (valuesP_lookupKey hva h1)]
    | some y =>
      simp only [combineOpt]
      rw [hcm x y (valuesP_lookupKey hva h1) (valuesP_lookupKey hvb h2)]

theorem bmerge_assoc {P : β → Prop} {comb : β → β → β} {d : β}
    {a b c : List (α × β)}
    (hcl : ∀ x y, P x → P y → P (comb x y))
    (has : ∀ x y z, P x → P y → P z → comb (comb x y) z = comb x (comb y z))
    (hd : ∀ y, P y → comb d y = y)
    (ha : keysSorted a) (hb : keysSorted b) (hc : keysSorted c)
    (hva : valuesP P a) (hvb : valuesP P b) (hvc : valuesP P c) :
    bmerge comb d (bmerge comb d a b) c = bmerge comb d a (bmerge comb d b c) := by
  refine sortedMap_ext (keysSorted_bmerge (keysSorted_bmerge ha)) (keysSorted_bmerge ha)
    (fun k => ?_)
  rw [lookupKey_bmerge (keysSorted_bmerge ha) hc,
    lookupKey_bmerge ha hb,
    lookupKey_bmerge ha (keysSorted_bmerge hb),
    lookupKey_bmerge hb hc]
  cases h1 : lookupKey k a with
  | none =>
    cases h2 : lookupKey k b with
    | none =>
      cases h3 : lookupKey k c with
      | none => rfl
      | some z =>
        have hz := valuesP_lookupKey hvc h3
        simp only [combineOpt]
        rw [hd z hz, hd z hz]
    | some y =>
      have hy := valuesP_lookupKey hvb h2
      cases h3 : lookupKey k c with
      | none => rfl
      | some z =>
        have hz := valuesP_lookupKey hvc h3
        simp only [combineOpt]
        rw [hd y hy, hd (comb y z) (hcl y z hy hz)]
  | some x =>
    have hx := valuesP_lookupKey hva h1
    cases h2 : lookupKey k b with
    | none =>
      cases h3 : lookupKey k c with
      | none => rfl
      | some z =>
        have hz := valuesP_lookupKey hvc h3
        simp only [combineOpt]
        rw [hd z hz]
    | some y =>
      have hy := valuesP_lookupKey hvb h2
      cases h3 : lookupKey k c with
      | none => rfl
      | some z =>
        have hz := valuesP_lookupKey hvc h3
        simp only [combineOpt]
        rw [has x y z hx hy hz]

end SortedMapTheorems

theorem setExtend_comm {x y : BSet Str} (hx : keysSorted x) (hy : keysSorted y) :
    setExtend x y = setExtend y x :=
  bmerge_comm (P := fun _ => True) (fun _ _ _ _ => rfl) (fun _ _ => rfl)
    hx hy (fun _ _ => trivial) (fun _ _ => trivial)

theorem setExtend_assoc {x y z : BSet Str} (hx : keysSorted x) (hy : keysSorted y)
    (hz : keysSorted z) :
    setExtend (setExtend x y) z = setExtend x (setExtend y z) :=
  bmerge_assoc (P := fun _ => True) (fun _ _ _ _ => trivial) (fun _ _ _ _ _ _ => rfl)
    (fun _ _ => rfl) hx hy hz (fun _ _ => trivial) (fun _ _ => trivial) (fun _ _ => trivial)

theorem setExtend_nil {y : BSet Str} (hy : keysSorted y) : setExtend [] y = y :=
  bmerge_nil_left (P := fun _ => True) (fun _ _ => rfl) hy (fun _ _ => trivial)

theorem keysSorted_setExtend {x y : BSet Str} (hx : keysSorted x) :
    keysSorted (setExtend x y) :=
  keysSorted_bmerge hx

theorem lsMerge_comm {a b : LibrarySymbols} (ha : lsWF a) (hb : lsWF b) :
    lsMerge a b = lsMerge b a :=
  bmerge_comm (P := keysSorted) (fun _ _ hx hy => setExtend_comm hx hy)
    (fun _ hy => setExtend_nil hy) ha.1 hb.1 ha.2 hb.2

theorem lsMerge_assoc {a b c : LibrarySymbols} (ha : lsWF a) (hb : lsWF b)
    (hc : lsWF c) : lsMerge (lsMerge a b) c = lsMerge a (lsMerge b c) :=
  bmerge_assoc (P := keysSorted) (fun _ _ hx _ => keysSorted_setExtend hx)
    (fun _ _ _ hx hy hz => setExtend_assoc hx hy hz) (fun _ hy => setExtend_nil hy)
    ha.1 hb.1 hc.1 ha.2 hb.2 hc.2

theorem lsWF_lsMerge {a b : LibrarySymbols} (ha : lsWF a) (hb : lsWF b) :
    lsWF (lsMerge a b) :=
  ⟨keysSorted_bmerge ha.1,
    valuesP_bmerge (fun _ _ hx _ => keysSorted_setExtend hx)
      (fun _ hy => setExtend_nil hy) ha.2 hb.2⟩

theorem lsMerge_nil {b : LibrarySymbols} (hb : lsWF b) : lsMerge [] b = b :=
  bmerge_nil_left (P := keysSorted) (fun _ hy => setExtend_nil hy) hb.1 hb.2

/-- C6: `RequiredSymbols::merge` is commutative and associative on
well-formed (`BTreeMap`-sorted) tables: merging a with b in either order
yields the same table, and merging three tables in either grouping yields
the same table. -/
theorem C6_merge_comm_assoc (a b c : RequiredSymbols)
    (ha : rsWF a) (hb : rsWF b) (hc : rsWF c) :
    a.merge b = b.merge a ∧ (a.merge b).merge c = a.merge (b.merge c) := by
  constructor
  · show RequiredSymbols.mk _ = RequiredSymbols.mk _
    congr 1
    exact bmerge_comm (P := lsWF) (fun _ _ hx hy => lsMerge_comm hx hy)
      (fun _ hy => lsMerge_nil hy) ha.1 hb.1 ha.2 hb.2
  · show RequiredSymbols.mk _ = RequiredSymbols.mk _
    congr 1
    exact bmerge_assoc (P := lsWF) (fun _ _ hx hy => lsWF_lsMerge hx hy)
      (fun _ _ _ hx hy hz => lsMerge_assoc hx hy hz) (fun _ hy => lsMerge_nil hy)
      ha.1 hb.1 hc.1 ha.2 hb.2 hc.2

/-- C6 witness: the merge theorem applied to the claim's concrete example
tables, together with the concrete merge result in both orders. -/
theorem C6_merge_comm_assoc_witness :
    (rsWF rsExampleA ∧ rsWF rsExampleB ∧ rsWF rsExampleEmpty)
      ∧ (rsExampleA.merge rsExampleB = rsExampleB.merge rsExampleA
          ∧ (rsExampleA.merge rsExampleB).merge rsExampleEmpty
            = rsExampleA.merge (rsExampleB.merge rsExampleEmpty))
      ∧ rsExampleA.merge rsExampleB = rsExampleAB
      ∧ rsExampleB.merge rsExampleA = rsExampleAB :=
  ⟨⟨by decide, by decide, by decide⟩,
    C6_merge_comm_assoc rsExampleA rsExampleB rsExampleEmpty
      (by decide) (by decide) (by decide),
    by decide, by decide⟩

/-! ### Theorems about the Mach-O validator -/

theorem machoResolve_preserves {dylib_names : List Str} {path : Str} :
    ∀ {syms : List MachOSymbolM} {ctx ctx' : ValidationContext},
    machoResolveUndefined dylib_names path ctx syms = .ok ctx' →
    ctx'.errors = ctx.errors ∧ ctx'.seen_dylibs = ctx.seen_dylibs := by
  intro syms
  induction syms with
  | nil =>
    intro ctx ctx' h
    simp only [machoResolveUndefined] at h
    injection h with h
    subst h
    exact ⟨rfl, rfl⟩
  | cons sym rest ih =>
    intro ctx ctx' h
    simp only [machoResolveUndefined] at h
    split at h
    · exact ih h
    · split at h
      · split at h
        · cases h
        · have hr := ih h
          constructor
          · rw [hr.1]
            split <;> rfl
          · rw [hr.2]
            split <;> rfl
      · exact ih h

theorem machoSymtabStep_sdk (ft : Nat) (path : Str) (st : MachoScanState)
    (sym : NlistM) : (machoSymtabStep ft path st sym).sdk_version = st.sdk_version := by
  unfold machoSymtabStep
  dsimp only
  repeat' split
  all_goals rfl

theorem machoSymtabStep_target (ft : Nat) (path : Str) (st : MachoScanState)
    (sym : NlistM) :
    (machoSymtabStep ft path st sym).target_version = st.target_version := by
  unfold machoSymtabStep
  dsimp only
  repeat' split
  all_goals rfl

theorem machoSymtabStep_seen (ft : Nat) (path : Str) (st : MachoScanState)
    (sym : NlistM) :
    (machoSymtabStep ft path st sym).ctx.seen_dylibs = st.ctx.seen_dylibs := by
  unfold machoSymtabStep
  dsimp only
  repeat' split
  all_goals rfl

theorem machoSymtabStep_countP (p : VError → Bool)
    (hdep : ∀ a b, p (.machoDependencySymbolExported a b) = false)
    (ft : Nat) (path : Str) (st : MachoScanState) (sym : NlistM) :
    ((machoSymtabStep ft path st sym).ctx.errors).countP p
      = (st.ctx.errors).countP p := by
  unfold machoSymtabStep
  dsimp only
  repeat' split
  all_goals simp [pushErr, List.countP_append, List.countP_cons, hdep]

theorem machoSymtabStep_errors_extend (ft : Nat) (path : Str)
    (st : MachoScanState) (sym : NlistM) :
    st.ctx.errors <+: (machoSymtabStep ft path st sym).ctx.errors := by
  unfold machoSymtabStep
  dsimp only
  repeat' split
  all_goals first
    | exact List.prefix_rfl
    | exact List.prefix_append _ _

theorem machoSymtabFold_sdk (ft : Nat) (path : Str) :
    ∀ (syms : List NlistM) (st : MachoScanState),
    (syms.foldl (machoSymtabStep ft path) st).sdk_version = st.sdk_version := by
  intro syms
  induction syms with
  | nil => intro st; rfl
  | cons s rest ih =>
    intro st
    rw [List.foldl_cons, ih, machoSymtabStep_sdk]

theorem machoSymtabFold_target (ft : Nat) (path : Str) :
    ∀ (syms : List NlistM) (st : MachoScanState),
    (syms.foldl (machoSymtabStep ft path) st).target_version = st.target_version := by
  intro syms
  induction syms with
  | nil => intro st; rfl
  | cons s rest ih =>
    intro st
    rw [List.foldl_cons, ih, machoSymtabStep_target]

theorem machoSymtabFold_seen (ft : Nat) (path : Str) :
    ∀ (syms : List NlistM) (st : MachoScanState),
    (syms.foldl (machoSymtabStep ft path) st).ctx.seen_dylibs
      = st.ctx.seen_dylibs := by
  intro syms
  induction syms with
  | nil => intro st; rfl
  | cons s rest ih =>
    intro st
    rw [List.foldl_cons, ih, machoSymtabStep_seen]

theorem machoSymtabFold_countP (p : VError → Bool)
    (hdep : ∀ a b, p (.machoDependencySymbolExported a b) = false)
    (ft : Nat) (path : Str) :
    ∀ (syms : List NlistM) (st : MachoScanState),
    ((syms.foldl (machoSymtabStep ft path) st).ctx.errors).countP p
      = (st.ctx.errors).countP p := by
  intro syms
  induction syms with
  | nil => intro st; rfl
  | cons s rest ih =>
    intro st
    rw [List.foldl_cons, ih, machoSymtabStep_countP p hdep]

theorem machoSymtabFold_errors_extend (ft : Nat) (path : Str) :
    ∀ (syms : List NlistM) (st : MachoScanState),
    st.ctx.errors <+: ((syms.foldl (machoSymtabStep ft path) st).ctx.errors) := by
  intro syms
  induction syms with
  | nil => intro st; exact List.prefix_rfl
  | cons s rest ih =>
    intro st
    rw [List.foldl_cons]
    exact (machoSymtabStep_errors_extend ft path st s).trans (ih _)

theorem machoScanStep_sdk (triple : Str) (ft : Nat) (path : Str)
    (st : MachoScanState) (cmd : LoadCommandM) :
    (machoScanStep triple ft path st cmd).sdk_version
      = cmdSdkUpdate st.sdk_version cmd := by
  cases cmd with
  | buildVersion minos sdk =>
    simp only [machoScanStep, cmdSdkUpdate]
    split <;> rfl
  | versionMin ver sdk =>
    simp only [machoScanStep, cmdSdkUpdate]
    split <;> rfl
  | dylib d =>
    simp only [machoScanStep, cmdSdkUpdate]
    split
    · split <;> rfl
    · rfl
  | symtab syms =>
    simp only [machoScanStep, cmdSdkUpdate]
    exact machoSymtabFold_sdk ft path syms st
  | otherCommand => rfl

theorem machoScan_sdk (triple : Str) (ft : Nat) (path : Str) :
    ∀ (cmds : List LoadCommandM) (st : MachoScanState),
    (machoScan triple ft path st cmds).sdk_version
      = lastNonZeroSdk cmds st.sdk_version := by
  intro cmds
  induction cmds with
  | nil => intro st; rfl
  | cons c rest ih =>
    intro st
    show (machoScan triple ft path (machoScanStep triple ft path st c) rest).sdk_version = _
    rw [ih, machoScanStep_sdk]
    rfl

theorem machoScanStep_countP (p : VError → Bool)
    (hdep : ∀ a b, p (.machoDependencySymbolExported a b) = false)
    (hil : ∀ a b, p (.machoIllegalLibrary a b) = false)
    (triple : Str) (ft : Nat) (path : Str) (st : MachoScanState)
    (cmd : LoadCommandM) :
    ((machoScanStep triple ft path st cmd).ctx.errors).countP p
      = (st.ctx.errors).countP p
        + (match cmd with
          | .dylib d =>
            match (allowed_dylibs_for_triple triple).find? (fun l => l.name == d.name) with
            | some entry =>
              if entry.max_compatibility_version.value < d.compatibility_version then
                if p (.machoTooNewVersion path d.name
                    (MachOPackedVersion.fromU32 d.compatibility_version)
                    entry.max_compatibility_version) then 1 else 0
              else 0
            | none => 0
          | _ => 0) := by
  cases cmd with
  | buildVersion minos sdk =>
    simp only [machoScanStep]
    split <;> rfl
  | versionMin ver sdk =>
    simp only [machoScanStep]
    split <;> rfl
  | dylib d =>
    simp only [machoScanStep, MachOPackedVersion.fromU32]
    cases hfind : (allowed_dylibs_for_triple triple).find? (fun l => l.name == d.name) with
    | some entry =>
      simp only [hfind]
      split
      · simp [pushErr, List.countP_append, List.countP_cons]
      · simp
    | none =>
      simp only [hfind]
      simp [pushErr, List.countP_append, List.countP_cons, hil]
  | symtab syms =>
    simp only [machoScanStep]
    rw [machoSymtabFold_countP p hdep]
    rfl
  | otherCommand => rfl

theorem machoScanStep_errors_extend (triple : Str) (ft : Nat) (path : Str)
    (st : MachoScanState) (cmd : LoadCommandM) :
    st.ctx.errors <+: (machoScanStep triple ft path st cmd).ctx.errors := by
  cases cmd with
  | buildVersion minos sdk =>
    simp only [machoScanStep]
    split <;> exact List.prefix_rfl
  | versionMin ver sdk =>
    simp only [machoScanStep]
    split <;> exact List.prefix_rfl
  | dylib d =>
    simp only [machoScanStep]
    split
    · split
      · exact List.prefix_append _ _
      · exact List.prefix_rfl
    · exact List.prefix_append _ _
  | symtab syms =>
    simp only [machoScanStep]
    exact machoSymtabFold_errors_extend ft path syms st
  | otherCommand => exact List.prefix_rfl

theorem machoScan_errors_extend (triple : Str) (ft : Nat) (path : Str) :
    ∀ (cmds : List LoadCommandM) (st : MachoScanState),
    st.ctx.errors <+: (machoScan triple ft path st cmds).ctx.errors := by
  intro cmds
  induction cmds with
  | nil => intro st; exact List.prefix_rfl
  | cons c rest ih =>
    intro st
    exact (machoScanStep_errors_extend triple ft path st c).trans (ih _)

theorem machoScan_countP_zero (p : VError → Bool)
    (hdep : ∀ a b, p (.machoDependencySymbolExported a b) = false)
    (hil : ∀ a b, p (.machoIllegalLibrary a b) = false)
    (hto : ∀ a b c d, p (.machoTooNewVersion a b c d) = false)
    (triple : Str) (ft : Nat) (path : Str) :
    ∀ (cmds : List LoadCommandM) (st : MachoScanState),
    ((machoScan triple ft path st cmds).ctx.errors).countP p
      = (st.ctx.errors).countP p := by
  intro cmds
  induction cmds with
  | nil => intro st; rfl
  | cons c rest ih =>
    intro st
    show ((machoScan triple ft path (machoScanStep triple ft path st c) rest).ctx.errors).countP p = _
    rw [ih, machoScanStep_countP p hdep hil]
    cases c with
    | buildVersion minos sdk => rfl
    | versionMin ver sdk => rfl
    | dylib d =>
      cases hfind : (allowed_dylibs_for_triple triple).find? (fun l => l.name == d.name) with
      | some entry => simp [hfind, hto]
      | none => simp [hfind]
    | symtab syms => rfl
    | otherCommand => rfl

theorem machoScan_countP_tooNew (triple : Str) (ft : Nat) (path : Str) :
    ∀ (cmds : List LoadCommandM) (st : MachoScanState),
    ((machoScan triple ft path st cmds).ctx.errors).countP isTooNewVersionErr
      = (st.ctx.errors).countP isTooNewVersionErr
        + cmds.countP (dylibTooNew triple) := by
  intro cmds
  induction cmds with
  | nil => intro st; rfl
  | cons c rest ih =>
    intro st
    show ((machoScan triple ft path (machoScanStep triple ft path st c) rest).ctx.errors).countP isTooNewVersionErr = _
    rw [ih, machoScanStep_countP isTooNewVersionErr (fun _ _ => rfl) (fun _ _ => rfl),
      List.countP_cons]
    cases c with
    | buildVersion minos sdk => simp [dylibTooNew]
    | versionMin ver sdk => simp [dylibTooNew]
    | dylib d =>
      cases hfind : (allowed_dylibs_for_triple triple).find? (fun l => l.name == d.name) with
      | some entry =>
        simp only [dylibTooNew, hfind]
        split
        all_goals simp_all [isTooNewVersionErr]
        all_goals omega
      | none => simp [dylibTooNew, hfind]
    | symtab syms => simp [dylibTooNew]
    | otherCommand => simp [dylibTooNew]

theorem machoVersionChecks_sdk_countP (advT advS : SemVer) (path : Str)
    (scan : MachoScanState) :
    ((machoVersionChecks advT advS path scan).errors).countP isSdkMismatchErr
      = (scan.ctx.errors).countP isSdkMismatchErr
        + (match scan.sdk_version with
          | some actual => if actual = advS then 0 else 1
          | none => 0) := by
  unfold machoVersionChecks
  cases hsv : scan.sdk_version with
  | none =>
    cases htv : scan.target_version with
    | none => simp [hsv, htv]
    | some t =>
      simp only [hsv, htv]
      split <;> simp [pushErr, List.countP_append, List.countP_cons, isSdkMismatchErr]
  | some a =>
    cases htv : scan.target_version with
    | none =>
      simp only [hsv, htv]
      split
      · rename_i hne
        simp [pushErr, List.countP_append, List.countP_cons, isSdkMismatchErr, hne]
      · rename_i hne
        rw [not_not] at hne
        simp [hne]
    | some t =>
      simp only [hsv, htv]
      split
      · rename_i hne
        split <;>
          simp [pushErr, List.countP_append, List.countP_cons, isSdkMismatchErr, hne]
      · rename_i hne
        rw [not_not] at hne
        split <;>
          simp [pushErr, List.countP_append, List.countP_cons, isSdkMismatchErr, hne]

theorem machoVersionChecks_sdk_mem {advT advS : SemVer} {path : Str}
    {scan : MachoScanState} {a : SemVer} (hsv : scan.sdk_version = some a)
    (hne : a ≠ advS) :
    VError.machoBuiltWrongSdk path a advS ∈ (machoVersionChecks advT advS path scan).errors := by
  unfold machoVersionChecks
  simp only [hsv]
  rw [if_pos hne]
  simp [pushErr]

/-- C7 counterexample: a Mach-O file with two `BuildVersion` load commands,
the first advertising SDK `10.0.0` (non-zero and different from the
JSON-declared `11.0.0`) and the second advertising `11.0.0`, produces no
SDK-mismatch error at all: only the last non-zero advertisement is
compared, so the claim's universal statement fails. -/
theorem C7_counterexample_earlier_advertisement :
    validate_macho ValidationContext.default (str ("x86_64-apple-darwin"))
        (str ("11.0")) (str ("11.0")) (str ("p")) ⟨CPU_TYPE_X86_64, 2, 128⟩
        [.buildVersion 720896 655360, .buildVersion 720896 720896]
      = .ok ValidationContext.default
    ∧ parse_version_nibbles 655360 = ⟨10, 0, 0⟩
    ∧ SemVer.ltb ⟨0, 0, 0⟩ ⟨10, 0, 0⟩ = true
    ∧ (⟨10, 0, 0⟩ : SemVer) ≠ (⟨11, 0, 0⟩ : SemVer)
    ∧ semverParse (str ("11.0") ++ str (".0")) = some ⟨11, 0, 0⟩ := by
  exact ⟨by decide, by decide, by decide, by decide, by decide⟩

/-- C7 (amended): in `validate_macho`, an advertised SDK version of exactly
`0.0.0` is never compared and never produces a mismatch error; the version
actually compared against the JSON-declared SDK version is the **last**
advertised SDK version strictly greater than `0.0.0` across all
`BuildVersion`/`VersionMin` load commands, and exactly one mismatch error
is recorded iff that version differs from the JSON-declared one. -/
theorem C7_sdk_zero_ignored_last_nonzero_compared
    (triple advT advS path : Str) (header : MachHeaderM)
    (cmds : List LoadCommandM) (sv : SemVer) (ctxOut : ValidationContext)
    (hS : semverParse (advS ++ str (".0")) = some sv)
    (hrun : validate_macho ValidationContext.default triple advT advS path header cmds
        = .ok ctxOut) :
    (ctxOut.errors).countP isSdkMismatchErr
      = (match lastNonZeroSdk cmds none with
        | some actual => if actual = sv then 0 else 1
        | none => 0)
    ∧ (∀ actual, lastNonZeroSdk cmds none = some actual → actual ≠ sv →
        VError.machoBuiltWrongSdk path actual sv ∈ ctxOut.errors) := by
  unfold validate_macho at hrun
  cases hT : semverParse (advT ++ str (".0")) with
  | none =>
    rw [hT] at hrun
    simp at hrun
  | some tv =>
    rw [hT, hS] at hrun
    cases hcpu : machoWantedCpu triple with
    | none =>
      rw [hcpu] at hrun
      simp at hrun
    | some w =>
      rw [hcpu] at hrun
      dsimp only at hrun
      have hsdkver :
          (machoScan triple header.filetype path
            ⟨[], [], none, none, machoHeaderChecks ValidationContext.default w path header⟩
            cmds).sdk_version = lastNonZeroSdk cmds none :=
        machoScan_sdk triple header.filetype path cmds _
      have hcount0 :
          ((machoHeaderChecks ValidationContext.default w path header).errors).countP
            isSdkMismatchErr = 0 := by
        unfold machoHeaderChecks ValidationContext.default
        dsimp only
        repeat' split
        all_goals simp [pushErr, List.countP_cons, List.countP_append, isSdkMismatchErr]
      have hscan0 :
          (((machoScan triple header.filetype path
            ⟨[], [], none, none, machoHeaderChecks ValidationContext.default w path header⟩
            cmds).ctx.errors)).countP isSdkMismatchErr = 0 := by
        rw [machoScan_countP_zero isSdkMismatchErr (fun _ _ => rfl) (fun _ _ => rfl)
          (fun _ _ _ _ => rfl)]
        exact hcount0
      split at hrun
      · have hpres := machoResolve_preserves hrun
        constructor
        · rw [hpres.1, machoVersionChecks_sdk_countP, hscan0, hsdkver]
          simp
        · intro a ha hne
          rw [hpres.1]
          exact machoVersionChecks_sdk_mem (by rw [hsdkver]; exact ha) hne
      · injection hrun with hrun
        subst hrun
        constructor
        · rw [machoVersionChecks_sdk_countP, hscan0, hsdkver]
          simp
        · intro a ha hne
          exact machoVersionChecks_sdk_mem (by rw [hsdkver]; exact ha) hne

/-- C7 witness: the amended theorem applied to the concrete two-command
run of the counterexample (last non-zero advertisement equals the JSON
version, so the mismatch count is zero). -/
theorem C7_sdk_zero_ignored_witness :
    ((ValidationContext.default).errors).countP isSdkMismatchErr
      = (match lastNonZeroSdk
            [.buildVersion 720896 655360, .buildVersion 720896 720896] none with
        | some actual => if actual = (⟨11, 0, 0⟩ : SemVer) then 0 else 1
        | none => 0) :=
  (C7_sdk_zero_ignored_last_nonzero_compared (str ("x86_64-apple-darwin"))
    (str ("11.0")) (str ("11.0")) (str ("p")) ⟨CPU_TYPE_X86_64, 2, 128⟩
    [.buildVersion 720896 655360, .buildVersion 720896 720896] ⟨11, 0, 0⟩
    ValidationContext.default (by decide) (by decide)).1

theorem machoVersionChecks_countP_zero (p : VError → Bool)
    (htW : ∀ a b c, p (.machoTargetsWrongSdk a b c) = false)
    (hsW : ∀ a b c, p (.machoBuiltWrongSdk a b c) = false)
    (advT advS : SemVer) (path : Str) (scan : MachoScanState) :
    ((machoVersionChecks advT advS path scan).errors).countP p
      = (scan.ctx.errors).countP p := by
  unfold machoVersionChecks
  cases hsv : scan.sdk_version <;> cases htv : scan.target_version <;>
    simp only [hsv, htv] <;>
    repeat' split
  all_goals simp [pushErr, List.countP_append, List.countP_cons, htW, hsW]

theorem machoVersionChecks_errors_extend (advT advS : SemVer) (path : Str)
    (scan : MachoScanState) :
    scan.ctx.errors <+: (machoVersionChecks advT advS path scan).errors := by
  unfold machoVersionChecks
  cases hsv : scan.sdk_version <;> cases htv : scan.target_version <;>
    simp only [hsv, htv] <;>
    repeat' split
  all_goals
    first
      | exact List.prefix_rfl
      | exact List.prefix_append _ _
      | exact (List.prefix_append _ _).trans (List.prefix_append _ _)

theorem machoHeaderChecks_countP_zero (p : VError → Bool)
    (hc : ∀ a b c, p (.machoWrongCpuType a b c) = false)
    (ht : ∀ a, p (.machoNoTwoLevel a) = false)
    (ctx : ValidationContext) (w : Nat) (path : Str) (header : MachHeaderM) :
    ((machoHeaderChecks ctx w path header).errors).countP p
      = (ctx.errors).countP p := by
  unfold machoHeaderChecks
  dsimp only
  repeat' split
  all_goals simp [pushErr, List.countP_append, List.countP_cons, hc, ht]

theorem machoScanStep_tooNew_mem (triple : Str) (ft : Nat) (path : Str)
    (st : MachoScanState) {d : DylibCommandM} {entry : MachOAllowedDylib}
    (hfind : (allowed_dylibs_for_triple triple).find? (fun l => l.name == d.name)
      = some entry)
    (hlt : entry.max_compatibility_version.value < d.compatibility_version) :
    VError.machoTooNewVersion path d.name
        (MachOPackedVersion.fromU32 d.compatibility_version)
        entry.max_compatibility_version
      ∈ (machoScanStep triple ft path st (.dylib d)).ctx.errors := by
  simp [machoScanStep, hfind, MachOPackedVersion.fromU32, hlt, pushErr]

theorem machoScan_tooNew_mem (triple : Str) (ft : Nat) (path : Str)
    {d : DylibCommandM} {entry : MachOAllowedDylib}
    (hfind : (allowed_dylibs_for_triple triple).find? (fun l => l.name == d.name)
      = some entry)
    (hlt : entry.max_compatibility_version.value < d.compatibility_version) :
    ∀ (cmds : List LoadCommandM) (st : MachoScanState),
    LoadCommandM.dylib d ∈ cmds →
    VError.machoTooNewVersion path d.name
        (MachOPackedVersion.fromU32 d.compatibility_version)
        entry.max_compatibility_version
      ∈ (machoScan triple ft path st cmds).ctx.errors := by
  intro cmds
  induction cmds with
  | nil => intro st h; cases h
  | cons c rest ih =>
    intro st hmem
    rcases List.mem_cons.1 hmem with h | h
    · subst h
      have h1 := machoScanStep_tooNew_mem triple ft path st hfind hlt
      exact (machoScan_errors_extend triple ft path rest _).subset h1
    · exact ih _ h

/-- C4: (a) after a successful `validate_macho` run starting from a fresh
context, the number of too-new-version errors equals the number of `Dylib`
load commands whose name matches an allow-list entry and whose packed
compatibility version strictly exceeds that entry's ceiling — exactly one
error per such load command — and each such command's error is present;
(b) the derived comparison on `MachOPackedVersion` is a total order that
agrees with lexicographic order on in-range `(major, minor, subminor)`
triples, with `(3,9,1) > (3,9,0)` and `(4,0,0) > (3,255,255)`. -/
theorem C4_dylib_version_check_total_order :
    (∀ (triple advT advS path : Str) (header : MachHeaderM)
        (cmds : List LoadCommandM) (ctxOut : ValidationContext),
      validate_macho ValidationContext.default triple advT advS path header cmds
          = .ok ctxOut →
      (ctxOut.errors).countP isTooNewVersionErr = cmds.countP (dylibTooNew triple))
    ∧ (∀ (triple advT advS path : Str) (header : MachHeaderM)
        (cmds : List LoadCommandM) (ctxOut : ValidationContext)
        (d : DylibCommandM) (entry : MachOAllowedDylib),
      validate_macho ValidationContext.default triple advT advS path header cmds
          = .ok ctxOut →
      LoadCommandM.dylib d ∈ cmds →
      (allowed_dylibs_for_triple triple).find? (fun l => l.name == d.name) = some entry →
      entry.max_compatibility_version.value < d.compatibility_version →
      VError.machoTooNewVersion path d.name
          (MachOPackedVersion.fromU32 d.compatibility_version)
          entry.max_compatibility_version ∈ ctxOut.errors)
    ∧ (∀ v w : MachOPackedVersion, MachOPackedVersion.ltv v w ∨ v = w
        ∨ MachOPackedVersion.ltv w v)
    ∧ (∀ v w u : MachOPackedVersion, MachOPackedVersion.ltv v w →
        MachOPackedVersion.ltv w u → MachOPackedVersion.ltv v u)
    ∧ (∀ v w : MachOPackedVersion, MachOPackedVersion.ltv v w →
        ¬ MachOPackedVersion.ltv w v)
    ∧ (∀ a b c a' b' c' : Nat, a < 65536 → b < 256 → c < 256 →
        a' < 65536 → b' < 256 → c' < 256 →
        (MachOPackedVersion.ltv ⟨a * 65536 + b * 256 + c⟩ ⟨a' * 65536 + b' * 256 + c'⟩
          ↔ (a < a' ∨ (a = a' ∧ (b < b' ∨ (b = b' ∧ c < c'))))))
    ∧ MachOPackedVersion.ltv ⟨3 * 65536 + 9 * 256 + 0⟩ ⟨3 * 65536 + 9 * 256 + 1⟩
    ∧ MachOPackedVersion.ltv ⟨3 * 65536 + 255 * 256 + 255⟩ ⟨4 * 65536 + 0 * 256 + 0⟩ := by
  refine ⟨?_, ?_, ?_, ?_, ?_, ?_, by decide, by decide⟩
  · intro triple advT advS path header cmds ctxOut hrun
    unfold validate_macho at hrun
    cases hT : semverParse (advT ++ str (".0")) with
    | none => rw [hT] at hrun; simp at hrun
    | some tv =>
      rw [hT] at hrun
      cases hS : semverParse (advS ++ str (".0")) with
      | none => rw [hS] at hrun; simp at hrun
      | some sv =>
        rw [hS] at hrun
        cases hcpu : machoWantedCpu triple with
        | none => rw [hcpu] at hrun; simp at hrun
        | some w =>
          rw [hcpu] at hrun
          dsimp only at hrun
          have hbase :
              ((machoHeaderChecks ValidationContext.default w path header).errors).countP
                isTooNewVersionErr = 0 :=
            machoHeaderChecks_countP_zero isTooNewVersionErr (fun _ _ _ => rfl)
              (fun _ => rfl) _ _ _ _
          have hscan := machoScan_countP_tooNew triple header.filetype path cmds
            ⟨[], [], none, none, machoHeaderChecks ValidationContext.default w path header⟩
          rw [hbase] at hscan
          have hver := machoVersionChecks_countP_zero isTooNewVersionErr
            (fun _ _ _ => rfl) (fun _ _ _ => rfl) tv sv path
            (machoScan triple header.filetype path
              ⟨[], [], none, none, machoHeaderChecks ValidationContext.default w path header⟩
              cmds)
          split at hrun
          · have hpres := machoResolve_preserves hrun
            rw [hpres.1, hver, hscan]
            simp
          · injection hrun with hrun
            subst hrun
            rw [hver, hscan]
            simp
  · intro triple advT advS path header cmds ctxOut d entry hrun hmem hfind hlt
    unfold validate_macho at hrun
    cases hT : semverParse (advT ++ str (".0")) with
    | none => rw [hT] at hrun; simp at hrun
    | some tv =>
      rw [hT] at hrun
      cases hS : semverParse (advS ++ str (".0")) with
      | none => rw [hS] at hrun; simp at hrun
      | some sv =>
        rw [hS] at hrun
        cases hcpu : machoWantedCpu triple with
        | none => rw [hcpu] at hrun; simp at hrun
        | some w =>
          rw [hcpu] at hrun
          dsimp only at hrun
          have hm := machoScan_tooNew_mem triple header.filetype path hfind hlt cmds
            ⟨[], [], none, none, machoHeaderChecks ValidationContext.default w path header⟩
            hmem
          have hm2 := (machoVersionChecks_errors_extend tv sv path _).subset hm
          split at hrun
          · have hpres := machoResolve_preserves hrun
            rw [hpres.1]
            exact hm2
          · injection hrun with hrun
            subst hrun
            exact hm2
  · intro v w
    obtain ⟨x⟩ := v
    obtain ⟨y⟩ := w
    rcases lt_trichotomy x y with h | h | h
    · exact Or.inl h
    · exact Or.inr (Or.inl (by rw [h]))
    · exact Or.inr (Or.inr h)
  · intro v w u h1 h2
    exact lt_trans h1 h2
  · intro v w h1 h2
    exact absurd (lt_trans h1 h2) (lt_irrefl _)
  · intro a b c a' b' c' h1 h2 h3 h4 h5 h6
    unfold MachOPackedVersion.ltv
    dsimp only
    omega

/-- C4 witness: the count theorem applied to a concrete run loading
`/usr/lib/libz.1.dylib` (ceiling `1.0.0`) with packed compatibility version
`2.0.0`, which produces exactly one too-new-version error. -/
theorem C4_dylib_version_check_witness :
    (([VError.machoTooNewVersion (str ("p")) (str ("/usr/lib/libz.1.dylib"))
        ⟨131072⟩ (mpv ("1.0.0"))] : List VError).countP isTooNewVersionErr
      = ([LoadCommandM.dylib ⟨str ("/usr/lib/libz.1.dylib"), 131072⟩] :
          List LoadCommandM).countP (dylibTooNew (str ("x86_64-apple-darwin"))))
    ∧ ([LoadCommandM.dylib ⟨str ("/usr/lib/libz.1.dylib"), 131072⟩] :
        List LoadCommandM).countP (dylibTooNew (str ("x86_64-apple-darwin"))) = 1 :=
  ⟨C4_dylib_version_check_total_order.1 (str ("x86_64-apple-darwin"))
      (str ("11.0")) (str ("11.0")) (str ("p")) ⟨CPU_TYPE_X86_64, 2, 128⟩
      [LoadCommandM.dylib ⟨str ("/usr/lib/libz.1.dylib"), 131072⟩]
      ⟨[VError.machoTooNewVersion (str ("p")) (str ("/usr/lib/libz.1.dylib"))
          ⟨131072⟩ (mpv ("1.0.0"))],
        [(str ("/usr/lib/libz.1.dylib"), ())], [], ⟨[]⟩, ⟨[]⟩⟩
      (by decide),
    by decide⟩

theorem setMem_setInsert_self {s : BSet Str} (hs : keysSorted s) (x : Str) :
    setMem x (setInsert x s) := by
  unfold setMem setInsert
  rw [lookupKey_mapModify_self hs]

theorem setMem_setInsert_mono {s : BSet Str} (hs : keysSorted s) {x : Str}
    (y : Str) (h : setMem x s) : setMem x (setInsert y s) := by
  by_cases hxy : x = y
  · subst hxy
    exact setMem_setInsert_self hs x
  · unfold setMem setInsert at *
    rw [lookupKey_mapModify_ne hxy]
    exact h

theorem keysSorted_setInsert {s : BSet Str} (hs : keysSorted s) (x : Str) :
    keysSorted (setInsert x s) :=
  keysSorted_mapModify hs

theorem machoHeaderChecks_seen (ctx : ValidationContext) (w : Nat) (path : Str)
    (header : MachHeaderM) :
    (machoHeaderChecks ctx w path header).seen_dylibs = ctx.seen_dylibs := by
  unfold machoHeaderChecks
  dsimp only
  repeat' split
  all_goals rfl

theorem machoVersionChecks_seen (advT advS : SemVer) (path : Str)
    (scan : MachoScanState) :
    (machoVersionChecks advT advS path scan).seen_dylibs
      = scan.ctx.seen_dylibs := by
  unfold machoVersionChecks
  cases hsv : scan.sdk_version <;> cases htv : scan.target_version <;>
    simp only [hsv, htv] <;>
    repeat' split
  all_goals rfl

theorem machoScanStep_seen_sorted (triple : Str) (ft : Nat) (path : Str)
    (st : MachoScanState) (cmd : LoadCommandM)
    (hs : keysSorted st.ctx.seen_dylibs) :
    keysSorted (machoScanStep triple ft path st cmd).ctx.seen_dylibs := by
  cases cmd with
  | buildVersion minos sdk =>
    simp only [machoScanStep]
    split <;> exact hs
  | versionMin ver sdk =>
    simp only [machoScanStep]
    split <;> exact hs
  | dylib d =>
    simp only [machoScanStep]
    split
    · split
      · exact keysSorted_setInsert hs _
      · exact keysSorted_setInsert hs _
    · exact hs
  | symtab syms =>
    simp only [machoScanStep]
    rw [machoSymtabFold_seen]
    exact hs
  | otherCommand => exact hs

theorem machoScanStep_seen_mono (triple : Str) (ft : Nat) (path : Str)
    (st : MachoScanState) (cmd : LoadCommandM) {x : Str}
    (hs : keysSorted st.ctx.seen_dylibs) (h : setMem x st.ctx.seen_dylibs) :
    setMem x (machoScanStep triple ft path st cmd).ctx.seen_dylibs := by
  cases cmd with
  | buildVersion minos sdk =>
    simp only [machoScanStep]
    split <;> exact h
  | versionMin ver sdk =>
    simp only [machoScanStep]
    split <;> exact h
  | dylib d =>
    simp only [machoScanStep]
    split
    · split
      · exact setMem_setInsert_mono hs _ h
      · exact setMem_setInsert_mono hs _ h
    · exact h
  | symtab syms =>
    simp only [machoScanStep]
    rw [machoSymtabFold_seen]
    exact h
  | otherCommand => exact h

theorem machoScanStep_seen_insert (triple : Str) (ft : Nat) (path : Str)
    (st : MachoScanState) {d : DylibCommandM} {entry : MachOAllowedDylib}
    (hs : keysSorted st.ctx.seen_dylibs)
    (hfind : (allowed_dylibs_for_triple triple).find? (fun l => l.name == d.name)
      = some entry) :
    setMem d.name (machoScanStep triple ft path st (.dylib d)).ctx.seen_dylibs := by
  simp only [machoScanStep, hfind]
  split
  · exact setMem_setInsert_self hs _
  · exact setMem_setInsert_self hs _

theorem machoScan_seen_sorted (triple : Str) (ft : Nat) (path : Str) :
    ∀ (cmds : List LoadCommandM) (st : MachoScanState),
    keysSorted st.ctx.seen_dylibs →
    keysSorted (machoScan triple ft path st cmds).ctx.seen_dylibs := by
  intro cmds
  induction cmds with
  | nil => intro st hs; exact hs
  | cons c rest ih =>
    intro st hs
    exact ih _ (machoScanStep_seen_sorted triple ft path st c hs)

theorem machoScan_seen_mono (triple : Str) (ft : Nat) (path : Str) :
    ∀ (cmds : List LoadCommandM) (st : MachoScanState) {x : Str},
    keysSorted st.ctx.seen_dylibs → setMem x st.ctx.seen_dylibs →
    setMem x (machoScan triple ft path st cmds).ctx.seen_dylibs := by
  intro cmds
  induction cmds with
  | nil => intro st x hs h; exact h
  | cons c rest ih =>
    intro st x hs h
    exact ih _ (machoScanStep_seen_sorted triple ft path st c hs)
      (machoScanStep_seen_mono triple ft path st c hs h)

theorem machoScan_seen_mem (triple : Str) (ft : Nat) (path : Str)
    {d : DylibCommandM} {entry : MachOAllowedDylib}
    (hfind : (allowed_dylibs_for_triple triple).find? (fun l => l.name == d.name)
      = some entry) :
    ∀ (cmds : List LoadCommandM) (st : MachoScanState),
    keysSorted st.ctx.seen_dylibs →
    LoadCommandM.dylib d ∈ cmds →
    setMem d.name (machoScan triple ft path st cmds).ctx.seen_dylibs := by
  intro cmds
  induction cmds with
  | nil => intro st hs h; cases h
  | cons c rest ih =>
    intro st hs hmem
    rcases List.mem_cons.1 hmem with h | h
    · subst h
      exact machoScan_seen_mono triple ft path rest _
        (machoScanStep_seen_sorted triple ft path st _ hs)
        (machoScanStep_seen_insert triple ft path st hs hfind)
    · exact ih _ (machoScanStep_seen_sorted triple ft path st c hs) h

/-- C8: (a) after a successful `validate_macho` run starting from a fresh
context, every `Dylib` load command whose name matches an allow-list entry
has its name recorded in the context's seen-dylibs set — the insertion is
unconditional, in particular it happens even when the compatibility version
exceeds the entry's ceiling and a too-new-version error is recorded; (b) in
the whole-archive check, a library present in the seen set never produces a
`required library dependency not seen` error. -/
theorem C8_seen_dylib_recorded :
    (∀ (triple advT advS path : Str) (header : MachHeaderM)
        (cmds : List LoadCommandM) (ctxOut : ValidationContext)
        (d : DylibCommandM) (entry : MachOAllowedDylib),
      validate_macho ValidationContext.default triple advT advS path header cmds
          = .ok ctxOut →
      LoadCommandM.dylib d ∈ cmds →
      (allowed_dylibs_for_triple triple).find? (fun l => l.name == d.name) = some entry →
      setMem d.name ctxOut.seen_dylibs)
    ∧ (∀ (triple : Str) (seen : BSet Str) (lib : Str),
      setMem lib seen →
      VError.requiredLibraryNotSeen lib ∉ requiredNotSeenErrors triple seen) := by
  constructor
  · intro triple advT advS path header cmds ctxOut d entry hrun hmem hfind
    unfold validate_macho at hrun
    cases hT : semverParse (advT ++ str (".0")) with
    | none => rw [hT] at hrun; simp at hrun
    | some tv =>
      rw [hT] at hrun
      cases hS : semverParse (advS ++ str (".0")) with
      | none => rw [hS] at hrun; simp at hrun
      | some sv =>
        rw [hS] at hrun
        cases hcpu : machoWantedCpu triple with
        | none => rw [hcpu] at hrun; simp at hrun
        | some w =>
          rw [hcpu] at hrun
          dsimp only at hrun
          have hs0 : keysSorted
              (⟨[], [], none, none,
                machoHeaderChecks ValidationContext.default w path header⟩ :
                MachoScanState).ctx.seen_dylibs := by
            rw [machoHeaderChecks_seen]
            exact List.Pairwise.nil
          have hscanmem := machoScan_seen_mem triple header.filetype path hfind cmds
            ⟨[], [], none, none, machoHeaderChecks ValidationContext.default w path header⟩
            hs0 hmem
          split at hrun
          · have hpres := machoResolve_preserves hrun
            rw [hpres.2, machoVersionChecks_seen]
            exact hscanmem
          · injection hrun with hrun
            subst hrun
            rw [machoVersionChecks_seen]
            exact hscanmem
  · intro triple seen lib hmem hin
    unfold requiredNotSeenErrors at hin
    rw [List.mem_map] at hin
    obtain ⟨p, hp, heq⟩ := hin
    rw [List.mem_filter] at hp
    injection heq with heq
    unfold setMem at hmem
    rw [← heq] at hmem
    rw [hmem] at hp
    simp at hp

/-- C8 witness: the theorem applied to the concrete too-new run from the C4
witness (the libz dylib is recorded as seen despite its version error), and
to the corresponding whole-archive check. -/
theorem C8_seen_dylib_recorded_witness :
    setMem (str ("/usr/lib/libz.1.dylib"))
        ([(str ("/usr/lib/libz.1.dylib"), ())] : BSet Str)
      ∧ VError.requiredLibraryNotSeen (str ("/usr/lib/libz.1.dylib"))
          ∉ requiredNotSeenErrors (str ("x86_64-apple-darwin"))
              [(str ("/usr/lib/libz.1.dylib"), ())] :=
  ⟨C8_seen_dylib_recorded.1 (str ("x86_64-apple-darwin")) (str ("11.0"))
      (str ("11.0")) (str ("p")) ⟨CPU_TYPE_X86_64, 2, 128⟩
      [LoadCommandM.dylib ⟨str ("/usr/lib/libz.1.dylib"), 131072⟩]
      ⟨[VError.machoTooNewVersion (str ("p")) (str ("/usr/lib/libz.1.dylib"))
          ⟨131072⟩ (mpv ("1.0.0"))],
        [(str ("/usr/lib/libz.1.dylib"), ())], [], ⟨[]⟩, ⟨[]⟩⟩
      ⟨str ("/usr/lib/libz.1.dylib"), 131072⟩
      ⟨str ("/usr/lib/libz.1.dylib"), mpv ("1.0.0"), true⟩
      (by decide) (by decide) (by decide),
    C8_seen_dylib_recorded.2 (str ("x86_64-apple-darwin"))
      [(str ("/usr/lib/libz.1.dylib"), ())] (str ("/usr/lib/libz.1.dylib"))
      (by decide)⟩

/-- C10: in the undefined-symbol resolution loop of `validate_macho` (run
for non-object files), a symbol whose library ordinal equals
`SELF_LIBRARY_ORDINAL` or is at least `MAX_LIBRARY_ORDINAL` is silently
skipped (the computation is exactly the computation without that symbol, so
nothing is inserted into the strong or weak tables and no error arises);
a symbol whose ordinal lies strictly between those bounds resolves against
the collected dylib names, failing with a resolution error exactly when the
ordinal exceeds the number of collected names. -/
theorem C10_ordinal_resolution :
    (∀ (dylib_names : List Str) (path : Str) (ctx : ValidationContext)
        (sym : MachOSymbolM) (rest : List MachOSymbolM),
      sym.library_ordinal = SELF_LIBRARY_ORDINAL
          ∨ MAX_LIBRARY_ORDINAL ≤ sym.library_ordinal →
      machoResolveUndefined dylib_names path ctx (sym :: rest)
        = machoResolveUndefined dylib_names path ctx rest)
    ∧ (∀ (dylib_names : List Str) (path : Str) (ctx : ValidationContext)
        (sym : MachOSymbolM) (rest : List MachOSymbolM),
      sym.library_ordinal ≠ SELF_LIBRARY_ORDINAL →
      sym.library_ordinal < MAX_LIBRARY_ORDINAL →
      dylib_names.get? (sym.library_ordinal - 1) = none →
      machoResolveUndefined dylib_names path ctx (sym :: rest)
        = .err .symbolLibraryUnresolved)
    ∧ (∀ (dylib_names : List Str) (path : Str) (ctx : ValidationContext)
        (sym : MachOSymbolM) (rest : List MachOSymbolM) (lib : Str),
      sym.library_ordinal ≠ SELF_LIBRARY_ORDINAL →
      sym.library_ordinal < MAX_LIBRARY_ORDINAL →
      dylib_names.get? (sym.library_ordinal - 1) = some lib →
      machoResolveUndefined dylib_names path ctx (sym :: rest)
        = machoResolveUndefined dylib_names path
            (if sym.weak then
              { ctx with macho_undefined_symbols_weak :=
                  (ctx.macho_undefined_symbols_weak.insert lib sym.name path) }
            else
              { ctx with macho_undefined_symbols_strong :=
                  (ctx.macho_undefined_symbols_strong.insert lib sym.name path) })
            rest) := by
  refine ⟨?_, ?_, ?_⟩
  · intro dylib_names path ctx sym rest h
    rcases h with h | h
    · simp only [machoResolveUndefined]
      rw [if_pos h]
    · have h' : 253 ≤ sym.library_ordinal := h
      simp only [machoResolveUndefined]
      rw [if_neg (by simp only [SELF_LIBRARY_ORDINAL]; omega),
        if_neg (by simp only [MAX_LIBRARY_ORDINAL]; omega)]
  · intro dylib_names path ctx sym rest h0 h1 hget
    simp only [machoResolveUndefined]
    rw [if_neg h0, if_pos h1, hget]
  · intro dylib_names path ctx sym rest lib h0 h1 hget
    simp only [machoResolveUndefined]
    rw [if_neg h0, if_pos h1, hget]

/-- C10 witness: the resolution-loop theorem applied at concrete symbols
with ordinals `0`, `253` (= `MAX_LIBRARY_ORDINAL`, skipped even though no
dylib names were collected) and `1` (no collected dylib names, which
fails), and at ordinal `252` with a 252-long name list (the largest
ordinal that still resolves). -/
theorem C10_ordinal_resolution_witness :
    (machoResolveUndefined [] (str ("f")) ValidationContext.default
        [⟨str ("sym0"), 0, false⟩] = machoResolveUndefined [] (str ("f"))
          ValidationContext.default [])
      ∧ (machoResolveUndefined [] (str ("f")) ValidationContext.default
          [⟨str ("sym253"), 253, false⟩] = machoResolveUndefined [] (str ("f"))
            ValidationContext.default [])
      ∧ (machoResolveUndefined [] (str ("f")) ValidationContext.default
          [⟨str ("sym1"), 1, false⟩] = .err .symbolLibraryUnresolved)
      ∧ machoResolveUndefined (List.replicate 252 (str ("L"))) (str ("f"))
          ValidationContext.default [⟨str ("sym252"), 252, false⟩]
        = machoResolveUndefined (List.replicate 252 (str ("L"))) (str ("f"))
            { ValidationContext.default with macho_undefined_symbols_strong :=
                ((ValidationContext.default).macho_undefined_symbols_strong.insert
                  (str ("L")) (str ("sym252")) (str ("f"))) } [] :=
  ⟨C10_ordinal_resolution.1 [] (str ("f")) ValidationContext.default
      ⟨str ("sym0"), 0, false⟩ [] (Or.inl (by decide)),
    C10_ordinal_resolution.1 [] (str ("f")) ValidationContext.default
      ⟨str ("sym253"), 253, false⟩ [] (Or.inr (by decide)),
    C10_ordinal_resolution.2.1 [] (str ("f")) ValidationContext.default
      ⟨str ("sym1"), 1, false⟩ [] (by decide) (by decide) (by decide),
    C10_ordinal_resolution.2.2 (List.replicate 252 (str ("L"))) (str ("f"))
      ValidationContext.default ⟨str ("sym252"), 252, false⟩ [] (str ("L"))
      (by decide) (by decide) (by decide)⟩

theorem runResult_bind_pure (x : RunResult α) : x >>= pure = x := by
  cases x <;> rfl

theorem elfSymVisibilityChecks_glibc (e_type : Nat) (path : Str)
    (ctx : ValidationContext) (sym : ElfSymM) :
    ((elfSymVisibilityChecks e_type path ctx sym).errors).filter isGlibcTooNewErr
      = (ctx.errors).filter isGlibcTooNewErr := by
  unfold elfSymVisibilityChecks
  repeat' split
  all_goals simp [pushErr, List.filter_append, isGlibcTooNewErr]

theorem elfSymUndefinedChecks_ok (ceiling : List Nat) (path : Str)
    (ctx : ValidationContext) (sym : ElfSymM) (hp : glibcParseOk sym = true) :
    ∃ ctx', elfSymUndefinedChecks ceiling path sym.versionName ctx sym = .ok ctx'
      ∧ (ctx'.errors).filter isGlibcTooNewErr
          = (ctx.errors).filter isGlibcTooNewErr
            ++ (expectedGlibcOne ceiling path sym).toList := by
  unfold elfSymUndefinedChecks expectedGlibcOne
  unfold glibcParseOk at hp
  cases hu : sym.isUndefined with
  | false =>
    rw [hu] at hp
    simp only [Bool.false_eq_true, if_false]
    exact ⟨ctx, rfl, by simp⟩
  | true =>
    rw [hu] at hp
    simp only [if_true]
    have hbanned :
        ((if ELF_BANNED_SYMBOLS.contains sym.name then
            pushErr ctx (.elfBannedSymbol path sym.name)
          else ctx).errors).filter isGlibcTooNewErr
          = (ctx.errors).filter isGlibcTooNewErr := by
      split <;> simp [pushErr, List.filter_append, isGlibcTooNewErr]
    cases hv : sym.versionName with
    | none =>
      refine ⟨_, rfl, ?_⟩
      rw [hbanned]
      simp
    | some version =>
      rw [hv] at hp
      dsimp only at hp ⊢
      cases hsp : splitn2 '_' version with
      | nil =>
        refine ⟨_, rfl, ?_⟩
        rw [hbanned]
        simp
      | cons p0 tail =>
        cases tail with
        | nil =>
          refine ⟨_, rfl, ?_⟩
          rw [hbanned]
          simp
        | cons p1 tail2 =>
          cases tail2 with
          | nil =>
            rw [hsp] at hp
            dsimp only at hp ⊢
            by_cases hg : p0 = str ("GLIBC")
            · rw [if_pos hg] at hp ⊢
              cases hvf : versionFrom p1 with
              | none =>
                rw [hvf] at hp
                simp at hp
              | some v =>
                dsimp only
                by_cases hc : versionCompareCmp v ceiling = .gt
                · rw [if_pos hc]
                  refine ⟨_, rfl, ?_⟩
                  have hbanned' := hbanned
                  simp only [pushErr] at hbanned' ⊢
                  rw [List.filter_append, hbanned']
                  simp [isGlibcTooNewErr, hg, hc]
                · rw [if_neg hc]
                  refine ⟨_, rfl, ?_⟩
                  rw [hbanned]
                  simp [hg, hc]
            · rw [if_neg hg]
              refine ⟨_, rfl, ?_⟩
              rw [hbanned]
              simp [hg]
          | cons p2 tail3 =>
            refine ⟨_, rfl, ?_⟩
            rw [hbanned]
            simp

theorem elfSymStep_ok (ceiling : List Nat) (e_type : Nat) (path : Str)
    (ctx : ValidationContext) (sym : ElfSymM) (hp : glibcParseOk sym = true) :
    ∃ ctx', elfSymStep ceiling e_type path SHT_DYNSYM true ctx sym = .ok ctx'
      ∧ (ctx'.errors).filter isGlibcTooNewErr
          = (ctx.errors).filter isGlibcTooNewErr
            ++ (expectedGlibcOne ceiling path sym).toList := by
  obtain ⟨ctx1, hstep, hfil⟩ := elfSymUndefinedChecks_ok ceiling path ctx sym hp
  refine ⟨elfSymVisibilityChecks e_type path ctx1 sym, ?_, ?_⟩
  · unfold elfSymStep
    have hvv : (if SHT_DYNSYM = SHT_DYNSYM ∧ true = true then sym.versionName else none)
        = sym.versionName := by simp
    rw [hvv]
    show (elfSymUndefinedChecks ceiling path sym.versionName ctx sym) >>= _ = _
    rw [hstep]
    rfl
  · rw [elfSymVisibilityChecks_glibc, hfil]

theorem elfSymFold_ok (ceiling : List Nat) (e_type : Nat) (path : Str) :
    ∀ (syms : List ElfSymM) (ctx : ValidationContext),
    (∀ s ∈ syms, glibcParseOk s = true) →
    ∃ ctx', syms.foldlM (elfSymStep ceiling e_type path SHT_DYNSYM true) ctx = .ok ctx'
      ∧ (ctx'.errors).filter isGlibcTooNewErr
          = (ctx.errors).filter isGlibcTooNewErr
            ++ expectedGlibcErrors ceiling path syms := by
  intro syms
  induction syms with
  | nil =>
    intro ctx h
    exact ⟨ctx, rfl, by simp [expectedGlibcErrors]⟩
  | cons s rest ih =>
    intro ctx h
    obtain ⟨ctx1, hstep, hfil⟩ :=
      elfSymStep_ok ceiling e_type path ctx s (h s (List.mem_cons_self _ _))
    obtain ⟨ctx', hfold, hfil'⟩ := ih ctx1 (fun x hx => h x (List.mem_cons_of_mem _ hx))
    refine ⟨ctx', ?_, ?_⟩
    · rw [List.foldlM_cons, hstep]
      exact hfold
    · rw [hfil', hfil]
      unfold expectedGlibcErrors
      rw [List.filterMap_cons]
      cases hone : expectedGlibcOne ceiling path s <;> simp [hone]

/-- C1: in `validate_elf` run over a `.dynsym` symbol section (with symbol
versions present), the too-new-glibc errors recorded are exactly those for
undefined symbols carrying a `GLIBC_X.Y` version suffix whose parsed
version compares strictly greater than the triple's configured maximum
glibc version from `GLIBC_MAX_VERSION_BY_TRIPLE` — in particular an error
is recorded for such a symbol iff its version exceeds the ceiling. -/
theorem C1_glibc_symbol_version_ceiling (triple : Str) (ceiling : List Nat)
    (w : Nat) (json : PythonJsonMainM) (pmm path : Str)
    (e_machine e_type : Nat) (syms : List ElfSymM)
    (hceil : glibcMaxVersionByTriple triple = some ceiling)
    (hcpu : elfWantedCpu triple = some w)
    (hwf : ∀ s ∈ syms, glibcParseOk s = true) :
    ∃ ctxOut, validate_elf ValidationContext.default json triple pmm path
        ⟨e_machine, e_type, true, [⟨SHT_DYNSYM, none, some syms⟩]⟩ = .ok ctxOut
      ∧ (ctxOut.errors).filter isGlibcTooNewErr
          = expectedGlibcErrors ceiling path syms := by
  unfold validate_elf
  rw [hcpu, hceil]
  dsimp only
  set ctx1 := (if e_machine ≠ w then
      pushErr ValidationContext.default (.invalidElfMachineType path w e_machine)
    else ValidationContext.default) with hctx1
  have hbase : (ctx1.errors).filter isGlibcTooNewErr = [] := by
    rw [hctx1]
    split <;> simp [pushErr, ValidationContext.default, isGlibcTooNewErr]
  obtain ⟨ctx', hfold, hfil⟩ := elfSymFold_ok ceiling e_type path syms ctx1 hwf
  refine ⟨ctx', ?_, ?_⟩
  · rw [List.foldlM_cons]
    unfold elfSectionStep
    dsimp only
    rw [hfold]
    rfl
  · rw [hfil, hbase]
    simp

/-- C1 witness: for the triple `x86_64-unknown-linux-gnu` (ceiling `2.17`),
a symbol versioned `GLIBC_2.18` yields the too-new error and a symbol
versioned `GLIBC_2.17` yields none. -/
theorem C1_glibc_symbol_version_witness :
    (∃ ctxOut, validate_elf ValidationContext.default
        ⟨none, none, none, none, ⟨⟨[], []⟩, []⟩, [], [], str ("3.9"), [], str ("t"), str ("8")⟩
        (str ("x86_64-unknown-linux-gnu")) (str ("3.9")) (str ("p"))
        ⟨EM_X86_64, ET_DYN, true,
          [⟨SHT_DYNSYM, none,
            some [⟨str ("s18"), some (str ("GLIBC_2.18")), true, 1, 0⟩,
              ⟨str ("s17"), some (str ("GLIBC_2.17")), true, 1, 0⟩]⟩]⟩ = .ok ctxOut
      ∧ (ctxOut.errors).filter isGlibcTooNewErr
          = expectedGlibcErrors [2, 17] (str ("p"))
              [⟨str ("s18"), some (str ("GLIBC_2.18")), true, 1, 0⟩,
                ⟨str ("s17"), some (str ("GLIBC_2.17")), true, 1, 0⟩])
    ∧ expectedGlibcErrors [2, 17] (str ("p"))
        [⟨str ("s18"), some (str ("GLIBC_2.18")), true, 1, 0⟩,
          ⟨str ("s17"), some (str ("GLIBC_2.17")), true, 1, 0⟩]
      = [.elfGlibcTooNew (str ("p")) (str ("s18")) [2, 18] [2, 17]] :=
  ⟨C1_glibc_symbol_version_ceiling (str ("x86_64-unknown-linux-gnu")) [2, 17]
      EM_X86_64
      ⟨none, none, none, none, ⟨⟨[], []⟩, []⟩, [], [], str ("3.9"), [], str ("t"), str ("8")⟩
      (str ("3.9")) (str ("p")) EM_X86_64 ET_DYN
      [⟨str ("s18"), some (str ("GLIBC_2.18")), true, 1, 0⟩,
        ⟨str ("s17"), some (str ("GLIBC_2.17")), true, 1, 0⟩]
      (by decide) (by decide) (by decide),
    by decide⟩

/-- C9 witness: the masking theorem applied at the concrete components
`(1, 256, 0)` from the claim. -/
theorem C9_minor_subminor_masked_witness :
    (MachOPackedVersion.tryFrom (verStr 1 256 0)
        = MachOPackedVersion.tryFrom (verStr 1 (256 % 256) (0 % 256)))
      ∧ (MachOPackedVersion.tryFrom (verStr 1 256 0)).map MachOPackedVersion.display
          ≠ some (verStr 1 256 0) :=
  ⟨(C9_minor_subminor_masked.1 1 256 0 (by decide) (by decide) (by decide)).2,
    C9_minor_subminor_masked.2.2 1 256 0 (by decide) (by decide) (by decide)
      (Or.inl (by decide))⟩

/-! ### Theorems about `validate_distribution` (C2, C3) -/

/-- C2: the claim says an archive whose first entry is not
`python/PYTHON.json` gets a recorded structural error, no further
per-binary validation, and the accumulated error list returned. In the
code that branch leaves `json` as `None`, and the later
`json.as_ref().unwrap()` calls (validation.rs:1751 inside the entry loop,
validation.rs:1906 in the extension-metadata sweep) panic — for any such
archive, with or without further entries, the function panics instead of
returning an error list. -/
theorem C2_first_entry_not_json_panics (dist_path : Str)
    (macos_sdks : Option SdksM) (first : TarEntryM) (rest : List TarEntryM)
    (dist_filename triple pmm : Str)
    (hf : fileName dist_path = some dist_filename)
    (ht : tripleFromDistPath dist_path = some triple)
    (hv : pythonMajorMinorFromFilename dist_filename = some pmm)
    (hne : ¬ first.path = str ("python/PYTHON.json")) :
    validate_distribution dist_path macos_sdks (first :: rest) = .panicked := by
  unfold validate_distribution
  rw [hf]
  dsimp only
  rw [ht]
  dsimp only
  rw [hv]
  dsimp only
  rw [if_neg hne]
  cases rest with
  | nil => rfl
  | cons r rs => rfl

/-- C2 witness: a concrete distribution archive whose first entry is
`python/foo.txt` makes `validate_distribution` panic. -/
theorem C2_first_entry_not_json_witness :
    fileName (str ("cpython-3.9.1-x86_64-unknown-linux-gnu-install_only.tar.gz"))
        = some (str ("cpython-3.9.1-x86_64-unknown-linux-gnu-install_only.tar.gz"))
      ∧ tripleFromDistPath
          (str ("cpython-3.9.1-x86_64-unknown-linux-gnu-install_only.tar.gz"))
        = some (str ("x86_64-unknown-linux-gnu"))
      ∧ pythonMajorMinorFromFilename
          (str ("cpython-3.9.1-x86_64-unknown-linux-gnu-install_only.tar.gz"))
        = some (str ("3.9"))
      ∧ validate_distribution
          (str ("cpython-3.9.1-x86_64-unknown-linux-gnu-install_only.tar.gz"))
          none
          [⟨str ("python/foo.txt"), none, .notObject, none, false, none⟩,
            ⟨str ("python/bar"), none, .notObject, none, false, none⟩]
        = .panicked :=
  ⟨by decide, by decide, by decide,
    C2_first_entry_not_json_panics
      (str ("cpython-3.9.1-x86_64-unknown-linux-gnu-install_only.tar.gz"))
      none
      ⟨str ("python/foo.txt"), none, .notObject, none, false, none⟩
      [⟨str ("python/bar"), none, .notObject, none, false, none⟩]
      (str ("cpython-3.9.1-x86_64-unknown-linux-gnu-install_only.tar.gz"))
      (str ("x86_64-unknown-linux-gnu")) (str ("3.9"))
      (by decide) (by decide) (by decide) (by decide)⟩

/-- C3 counterexample: an archive with a clean `python/PYTHON.json`, then
an entry recognized as ELF whose header parse fails, then another entry.
The parse failure is not recorded as a local error: `validate_distribution`
aborts with the propagated parse error, the third entry is never examined
and no error list is produced. -/
theorem C3_counterexample_parse_failure_aborts :
    validate_distribution
        (str ("cpython-3.9.1-x86_64-apple-ios-install_only.tar.gz")) none
        [⟨str ("python/PYTHON.json"), none, .notObject, none, false,
            some iosJson⟩,
          elfParseFailEntry, afterFailEntry]
      = .err .objectHeaderParse := by decide

/-- C3 amended: a parse failure on an entry recognized as an object format
is not recorded as a local error for that entry: the `?` at
validation.rs:1747–1756 propagates it out of the entry loop, so whenever
a prefix of the remaining entries processes cleanly and the next entry's
step fails with a structural error, the whole loop — and with it
`validate_distribution` — stops with that error, never examining the
entries after it. -/
theorem C3_parse_failure_aborts_loop (json : Option PythonJsonMainM)
    (pmm triple : Str) (st st1 : DistState) (pre : List TarEntryM)
    (bad : TarEntryM) (post : List TarEntryM) (e : RErr)
    (hpre : pre.foldlM (distEntryStep json pmm triple) st = .ok st1)
    (hbad : distEntryStep json pmm triple st1 bad = .err e) :
    (pre ++ bad :: post).foldlM (distEntryStep json pmm triple) st
      = .err e := by
  induction pre generalizing st with
  | nil =>
    have h : st = st1 := by
      have hpre' : RunResult.ok st = RunResult.ok st1 := hpre
      injection hpre'
    subst h
    rw [List.nil_append, List.foldlM_cons, hbad]
    rfl
  | cons a as ih =>
    rw [List.foldlM_cons] at hpre
    rw [List.cons_append, List.foldlM_cons]
    cases hstep : distEntryStep json pmm triple st a with
    | ok s =>
      rw [hstep] at hpre
      exact ih s hpre
    | err e2 =>
      rw [hstep] at hpre
      exact RunResult.noConfusion
        (show RunResult.err e2 = RunResult.ok st1 from hpre)
    | panicked =>
      rw [hstep] at hpre
      exact RunResult.noConfusion
        (show RunResult.panicked = RunResult.ok st1 from hpre)

/-- C3 witness: the amended theorem applied to the concrete failing entry
of the counterexample (empty clean prefix, one entry after the failure). -/
theorem C3_parse_failure_aborts_witness :
    ([] : List TarEntryM).foldlM
        (distEntryStep (some iosJson) (str ("3.9")) (str ("x86_64-apple-ios")))
        iosState = .ok iosState
      ∧ distEntryStep (some iosJson) (str ("3.9")) (str ("x86_64-apple-ios"))
          iosState elfParseFailEntry = .err .objectHeaderParse
      ∧ ([] ++ elfParseFailEntry :: [afterFailEntry]).foldlM
          (distEntryStep (some iosJson) (str ("3.9")) (str ("x86_64-apple-ios")))
          iosState = .err .objectHeaderParse :=
  ⟨rfl, by decide,
    C3_parse_failure_aborts_loop (some iosJson) (str ("3.9"))
      (str ("x86_64-apple-ios")) iosState iosState [] elfParseFailEntry
      [afterFailEntry] .objectHeaderParse rfl (by decide)⟩

end PBS

